import Mathlib

/-!
Verification development for the flink-sql-toolkit repository: a shallow
embedding of the statement-execution engine (`src/notebookController.ts`),
the gateway client (`src/flinkClient.ts`) and the session registry
(`src/sessionManager.ts`), together with theorems settling the frozen
claims about the natural-language specification.

Rows are abstracted as natural-number identifiers; remote calls are driven
by explicit environments (oracles) mapping tokens or call indices to
outcomes, and the engine is embedded as a pure, fuel-bounded function that
emits an event trace (fetches, publishes, cancel requests, the terminal
`end` call and the metadata-changed notification).

Text processing (statement splitting, error-text matching, stack-trace
classification) is embedded structurally over `List Char` so every
definition evaluates by kernel reduction on concrete inputs.
-/

/-- Character-list prefix test (structural, kernel-reducible). -/
def isPrefixList (p l : List Char) : Bool :=
  match p, l with
  | [], _ => true
  | _ :: _, [] => false
  | a :: ps, b :: ls => a == b && isPrefixList ps ls

/-- Whether the pattern occurs as a contiguous sublist. -/
def hasSubList (pat : List Char) : List Char → Bool
  | [] => isPrefixList pat []
  | c :: rest => isPrefixList pat (c :: rest) || hasSubList pat rest

/-- Split on a separator character; mirrors the JS `split` semantics
(keeps empty fragments). -/
def splitOnCharAux (sep : Char) : List Char → List Char → List (List Char)
  | [], cur => [cur.reverse]
  | c :: rest, cur =>
    if c == sep then cur.reverse :: splitOnCharAux sep rest []
    else splitOnCharAux sep rest (c :: cur)

/-- Trim leading and trailing whitespace, as JS `trim`. -/
def trimChars (l : List Char) : List Char :=
  ((l.dropWhile Char.isWhitespace).reverse.dropWhile Char.isWhitespace).reverse

/-- JS `String.prototype.trim`. -/
def strTrim (s : String) : String := ⟨trimChars s.data⟩

/-- JS `String.prototype.startsWith`. -/
def strStartsWith (s p : String) : Bool := isPrefixList p.data s.data

/-- JS `String.prototype.split` with a one-character separator. -/
def splitOnChar (sep : Char) (s : String) : List String :=
  (splitOnCharAux sep s.data []).map (fun l => ⟨l⟩)

/-- JS `String.prototype.includes`. -/
def strContains (s pat : String) : Bool := hasSubList pat.data s.data

/-- JS `String.prototype.toUpperCase` (ASCII, which covers the SQL
keywords compared against). -/
def strToUpper (s : String) : String := ⟨s.data.map Char.toUpper⟩

/-- JS `String.prototype.toLowerCase` (ASCII). -/
def strToLower (s : String) : String := ⟨s.data.map Char.toLower⟩

/-- Drop the first `n` characters. -/
def strDropN (s : String) (n : Nat) : String := ⟨s.data.drop n⟩

/-- Keep the first `n` characters (JS `substring(0, n)`). -/
def strTakeN (s : String) (n : Nat) : String := ⟨s.data.take n⟩

/-- Whether the string ends with the given character. -/
def strEndsWithChar (s : String) (c : Char) : Bool := s.data.getLast? == some c

/-- Drop the last character. -/
def strDropLast (s : String) : String := ⟨s.data.dropLast⟩

/-- String length in characters. -/
def strLen (s : String) : Nat := s.data.length

example : strStartsWith (strToUpper "create table t") "CREATE" = true := by decide
example : strTrim "  ab c  " = "ab c" := by decide
example : splitOnChar ';' "a;;b" = ["a", "", "b"] := by decide
example : strContains "xnoresourceavailableexceptiony" "noresourceavailableexception" = true := by decide

/-- One page of results as returned by `FlinkGatewayClient.fetchResults`
(the mapped, total form the notebook controller consumes). -/
structure ResultData where
  results : List Nat
  columns : List String
  resultKind : Option String
  resultType : String
  jobID : Option String
  nextResultUri : Option String
  isQueryResult : Bool
  nextResultToken : Option Nat
deriving DecidableEq

/-- The `results` sub-object of a raw gateway response. -/
structure RawResults where
  data : List Nat
  columns : List String
deriving DecidableEq

/-- A raw gateway response body for `GET .../result/{token}`, with every
field optional, as the remote gateway may omit any of them. -/
structure RawResponse where
  results : Option RawResults
  resultKind : Option String
  resultType : Option String
  jobID : Option String
  nextResultUri : Option String
  isQueryResult : Option Bool
  nextResultToken : Option Nat
deriving DecidableEq

/-- The field-by-field totalization performed by
`FlinkGatewayClient.fetchResults` (flinkClient.ts lines 162-171):
`results ? results.data : []`, `results ? results.columns : []`,
a missing or falsy resultType becomes PAYLOAD and a missing
isQueryResult becomes false (JS or-default semantics, where an empty
string is also replaced by the default). -/
def fetchResultsMap (r : RawResponse) : ResultData :=
  { results := match r.results with
      | some rr => rr.data
      | none => []
  , columns := match r.results with
      | some rr => rr.columns
      | none => []
  , resultKind := r.resultKind
  , resultType := match r.resultType with
      | some s => if s = "" then "PAYLOAD" else s
      | none => "PAYLOAD"
  , jobID := r.jobID
  , nextResultUri := r.nextResultUri
  , isQueryResult := match r.isQueryResult with
      | some b => b
      | none => false
  , nextResultToken := r.nextResultToken }

/-- The parsed shape of a non-2xx gateway response body, as distinguished
by `FlinkGatewayClient.handleErrorResponse`: a JSON object with an
`errors` string array, some other valid JSON, or a non-JSON raw text. -/
inductive ErrBody where
  | jsonErrors (errors : List String)
  | jsonOther (text : String)
  | notJson (text : String)
deriving DecidableEq

/-- Strips the wrapper applied by the gateway around the server-side stack
trace, mirroring the two regex replaces in handleErrorResponse
(flinkClient.ts line 96): drop a leading
`<Exception on server side:` plus an optional newline, then drop a single
trailing `>`. -/
def stripWrapper (s : String) : String :=
  let s1 :=
    if strStartsWith s "<Exception on server side:\n" then
      strDropN s (strLen "<Exception on server side:\n")
    else if strStartsWith s "<Exception on server side:" then
      strDropN s (strLen "<Exception on server side:")
    else s
  if strEndsWithChar s1 '>' then strDropLast s1 else s1

/-- The lines of a stack whose trimmed form starts with the text
`Caused by:` (flinkClient.ts lines 100-101). -/
def causedByLines (stack : String) : List String :=
  (splitOnChar '\n' stack).filter (fun l => strStartsWith (strTrim l) "Caused by:")

/-- `FlinkGatewayClient.handleErrorResponse` (flinkClient.ts lines 78-125)
as a pure classifier from the parsed body to the pair
(message, optional stack). -/
def handleErrorResponse (status : Nat) (body : ErrBody) : String × Option String :=
  let base := "Flink Gateway Error (" ++ toString status ++ ")"
  match body with
  | .jsonErrors errors =>
    let message :=
      match errors.head? with
      | some e0 => e0
      | none => base
    match errors.get? 1 with
    | none => (message, none)
    | some e1 =>
      let raw := stripWrapper e1
      match (causedByLines raw).getLast? with
      | none => (message, some raw)
      | some last => (message ++ " " ++ strTrim last, some raw)
  | .jsonOther text => (base ++ ": " ++ text, none)
  | .notJson text =>
    if strLen text > 500 then (base ++ ": " ++ strTakeN text 500 ++ "...", none)
    else (base ++ ": " ++ text, none)

/-- Statement splitting of a cell text (notebookController.ts lines 73-75):
split on semicolons, trim, drop empty fragments. -/
def splitStatements (sql : String) : List String :=
  (((splitOnChar ';' sql).map strTrim).filter (fun s => strLen s > 0))

/-- `hasCreateStatement` (notebookController.ts line 77): some statement,
upper-cased, starts with `CREATE`. -/
def hasCreateStatement (stmts : List String) : Bool :=
  stmts.any (fun s => strStartsWith (strToUpper s) "CREATE")

/-- The fail-fast predicate of the streaming poll loop
(notebookController.ts lines 197-203): the lower-cased error text contains
one of the two structural exception class names. -/
def fatalErr (msg : String) : Bool :=
  strContains (strToLower msg) "tablealreadyexistexception" ||
  strContains (strToLower msg) "noresourceavailableexception"

example : fatalErr "org.apache.flink.NoResourceAvailableException: x" = true := by decide
example : fatalErr "connection reset" = false := by decide
example : splitStatements "CREATE TABLE t (x INT); INSERT INTO t VALUES (1);" =
    ["CREATE TABLE t (x INT)", "INSERT INTO t VALUES (1)"] := by decide
example : hasCreateStatement ["create table t (x INT)"] = true := by decide
example : hasCreateStatement ["DROP TABLE t"] = false := by decide

/-- Publish metadata (`streamingInfo` passed to `createOutput`,
notebookController.ts line 100). -/
structure StreamMeta where
  isStreaming : Bool
  isComplete : Bool
  offset : Option Nat
deriving DecidableEq

/-- Observable events of one cell execution: entering a statement,
result fetches (by token, successful or failing), buffer publishes
(`execution.replaceOutput`), the remote cancel/close requests issued by
`cancelOperation`, the metadata-changed notification
(`_onDidExecute.fire`) and the terminal `execution.end` call. -/
inductive Event where
  | stmtStart (s : String)
  | fetchOk (token : Nat)
  | fetchErr (token : Nat)
  | publish (rows : List Nat) (meta : Option StreamMeta)
  | cancelJobReq (jobId : String)
  | cancelReq
  | closeReq
  | metaChanged
  | ended (success : Bool)
deriving DecidableEq

/-- How the streaming polling loop terminated. -/
inductive StreamExit where
  | canceledUser
  | canceledStatus
  | finishedStream
  | pollLimit
  | failed (msg : String)
deriving DecidableEq

/-- `FlinkGatewayClient.cancelOperation` (flinkClient.ts lines 269-296):
best-effort cancel of the job (when a job id is known), then the cancel
request; on a successful cancel also a close request whose failure is
ignored; a failing cancel is swallowed as well, so the function never
throws and is modelled as a total event emitter. -/
def cancelOperation (jobId : Option String) (cancelWorks : Except String Unit) :
    List Event :=
  (match jobId with
   | some j => [Event.cancelJobReq j]
   | none => []) ++
  [Event.cancelReq] ++
  (match cancelWorks with
   | .ok _ => [Event.closeReq]
   | .error _ => [])

/-- The streaming polling loop of `FlinkNotebookController._doExecution`
(notebookController.ts lines 131-213), embedded as a fuel-bounded
recursion. The fuel stands for `maxPolls - pollCount` with
`maxPolls = 1000`; `i` is the current `pollCount` (used to index the
cancellation signal), `tok` the current token, `cE` the shared
`consecutiveEmpty` counter, `tR` the `totalRows` counter and `acc` the
accumulated `allResults` buffer. Returns the emitted events, the exit
cause and the final buffer. -/
def streamLoop (jobId : Option String) (cancelWorks : Except String Unit)
    (fetch : Nat → Except String ResultData) (cancelAt : Nat → Bool) :
    Nat → Nat → Nat → Nat → Nat → List Nat → List Event × StreamExit × List Nat
  | 0, _, _, _, _, acc => ([], .pollLimit, acc)
  | fuel + 1, i, tok, cE, tR, acc =>
    if cancelAt i then
      (cancelOperation jobId cancelWorks ++
         [Event.publish acc (some ⟨false, true, some (tR - acc.length)⟩)],
       .canceledUser, acc)
    else
      match fetch (tok + 1) with
      | .error msg =>
        if fatalErr msg then ([Event.fetchErr (tok + 1)], .failed msg, acc)
        else if cE + 1 ≥ 5 then ([Event.fetchErr (tok + 1)], .failed msg, acc)
        else
          let r := streamLoop jobId cancelWorks fetch cancelAt fuel (i + 1) (tok + 1) (cE + 1) tR acc
          (Event.fetchErr (tok + 1) :: r.1, r.2)
      | .ok d =>
        if d.resultType = "ERROR" then
          if cE + 1 ≥ 5 then
            ([Event.fetchOk (tok + 1)], .failed "Flink Operation failed with ERROR status.", acc)
          else
            let r := streamLoop jobId cancelWorks fetch cancelAt fuel (i + 1) (tok + 1) (cE + 1) tR acc
            (Event.fetchOk (tok + 1) :: r.1, r.2)
        else if d.resultType = "CANCELED" then
          ([Event.fetchOk (tok + 1)], .canceledStatus, acc)
        else if d.results.length > 0 then
          let acc1 := acc ++ d.results
          let tR1 := tR + d.results.length
          let acc2 := if acc1.length > 1000 then acc1.drop (acc1.length - 1000) else acc1
          let pub := Event.publish acc2 (some ⟨true, false, some (tR1 - acc2.length)⟩)
          if d.resultType = "EOS" ∨ d.resultType = "FINISHED" then
            ([Event.fetchOk (tok + 1), pub], .finishedStream, acc2)
          else
            let r := streamLoop jobId cancelWorks fetch cancelAt fuel (i + 1) (tok + 1) 0 tR1 acc2
            (Event.fetchOk (tok + 1) :: pub :: r.1, r.2)
        else
          if d.resultType = "EOS" ∨ d.resultType = "FINISHED" then
            ([Event.fetchOk (tok + 1)], .finishedStream, acc)
          else
            let r := streamLoop jobId cancelWorks fetch cancelAt fuel (i + 1) (tok + 1) (cE + 1) tR acc
            (Event.fetchOk (tok + 1) :: r.1, r.2)

/-- Per-statement environment: the outcome of `executeStatement`, the
token-indexed outcomes of `fetchResults`, the cancellation signal at the
top of each polling iteration, and the outcome of the remote cancel
request. -/
structure StmtEnv where
  submit : Except String Unit
  fetch : Nat → Except String ResultData
  cancelAt : Nat → Bool
  cancelWorks : Except String Unit

/-- One statement of the per-cell loop of
`FlinkNotebookController._doExecution` (notebookController.ts lines
87-251): submit, fetch the first page (token 0), publish it (with a
streaming marker when `isQueryResult` is true), then for streaming
results run the polling loop and, unless the loop escalated an error,
publish the final buffer marked complete. Returns the events and the
statement outcome (`error` models the exception rethrown at line 249). -/
def runStatement (env : StmtEnv) (stmt : String) : List Event × Except String Unit :=
  match env.submit with
  | .error e => ([Event.stmtStart stmt], .error e)
  | .ok _ =>
    match env.fetch 0 with
    | .error e => ([Event.stmtStart stmt, Event.fetchErr 0], .error e)
    | .ok d0 =>
      let initEvs := [Event.stmtStart stmt, Event.fetchOk 0,
        Event.publish d0.results
          (if d0.isQueryResult then some ⟨true, false, none⟩ else none)]
      if d0.isQueryResult then
        let r := streamLoop d0.jobID env.cancelWorks env.fetch env.cancelAt
          1000 0 0 0 d0.results.length d0.results
        match r.2.1 with
        | .failed e => (initEvs ++ r.1, .error e)
        | _ => (initEvs ++ r.1 ++
            [Event.publish r.2.2 (some ⟨false, true, none⟩)], .ok ())
      else (initEvs, .ok ())

/-- The sequential statement loop (notebookController.ts line 87): run
each statement to its terminal state; a failing statement stops the batch
and the error escapes to the cell-level handler. -/
def runStmts (envs : Nat → StmtEnv) : List String → Nat → List Event × Except String Unit
  | [], _ => ([], .ok ())
  | s :: rest, i =>
    let r := runStatement (envs i) s
    match r.2 with
    | .error e => (r.1, .error e)
    | .ok _ =>
      let r2 := runStmts envs rest (i + 1)
      (r.1 ++ r2.1, r2.2)

/-- Per-cell environment: the cell text, the outcome of resolving a
session handle, and one statement environment per statement index. -/
structure CellEnv where
  sql : String
  session : Except String Unit
  stmts : Nat → StmtEnv

/-- `FlinkNotebookController._doExecution` (notebookController.ts lines
58-266) for one cell: resolve the session, split the statements, run them
sequentially, end the execution exactly once (successfully at line 80 or
253, with failure at line 260), and finally fire the metadata-changed
notification when some statement was CREATE-prefixed (lines 261-265). -/
def cellExec (env : CellEnv) : List Event :=
  match env.session with
  | .error _ => [Event.ended false]
  | .ok _ =>
    let stmts := splitStatements env.sql
    let fireEvs : List Event :=
      if hasCreateStatement stmts then [Event.metaChanged] else []
    if stmts.isEmpty then Event.ended true :: fireEvs
    else
      let r := runStmts env.stmts stmts 0
      match r.2 with
      | .ok _ => r.1 ++ (Event.ended true :: fireEvs)
      | .error _ => r.1 ++ (Event.ended false :: fireEvs)

/-- The lengths of all published buffers in a trace, in order. -/
def pubLens (evs : List Event) : List Nat :=
  evs.filterMap fun e =>
    match e with
    | .publish rows _ => some rows.length
    | _ => none

/-- For every publish carrying an offset, the quantity
`offset + buffer.length`, in trace order. -/
def osums (evs : List Event) : List Nat :=
  evs.filterMap fun e =>
    match e with
    | .publish rows (some ⟨_, _, some off⟩) => some (off + rows.length)
    | _ => none

/-- Whether an event is a publish whose metadata marks the output
complete (`isComplete = true`). -/
def isCompletePub (e : Event) : Bool :=
  match e with
  | .publish _ (some m) => m.isComplete
  | _ => false

/-- Number of complete-marked publishes in a trace. -/
def countCompletePubs (evs : List Event) : Nat :=
  (evs.filter isCompletePub).length

/-- The tokens of all fetch attempts (successful or failing), in order. -/
def fetchTokens (evs : List Event) : List Nat :=
  evs.filterMap fun e =>
    match e with
    | .fetchOk t => some t
    | .fetchErr t => some t
    | _ => none

/-- Number of metadata-changed notifications in a trace. -/
def countMeta (evs : List Event) : Nat :=
  (evs.filter fun e => e == Event.metaChanged).length

/-- Number of terminal `end` calls in a trace. -/
def countEnded (evs : List Event) : Nat :=
  (evs.filter fun e =>
    match e with
    | .ended _ => true
    | _ => false).length

/-- The statements entered, in order. -/
def stmtStarts (evs : List Event) : List String :=
  evs.filterMap fun e =>
    match e with
    | .stmtStart s => some s
    | _ => none

/-- A registered session (sessionManager.ts lines 6-11). -/
structure SessionInfo where
  name : String
  handle : String
  connectionId : String
  createdAt : Nat
deriving DecidableEq

/-- Session-registry state: the connection ids that exist in the
connection manager, the registered sessions and the active handle. -/
structure SMState where
  connections : List String
  sessions : List SessionInfo
  active : Option String
deriving DecidableEq

/-- Environment for the session registry: the remote liveness check by
handle, the gateway session-creation outcome, the interactive pick
results, the interactive name input, and the clock. -/
structure SMEnv where
  check : String → Bool
  gwCreate : Except String String
  pickConn : Option String
  pickedSession : Option String
  inputName : Option String
  now : Nat

/-- `SessionManager._removeSession` (sessionManager.ts lines 248-255):
drop every session with the handle; if it was active, promote the first
remaining session (or none). -/
def removeSessionState (st : SMState) (h : String) : SMState :=
  let ss := st.sessions.filter (fun s => s.handle != h)
  { st with
    sessions := ss,
    active := if st.active == some h then ss.head?.map (fun s => s.handle) else st.active }

/-- `SessionManager.createSession` (sessionManager.ts lines 125-171):
resolve the target connection (the given one when it still exists, else
the interactively picked one; a cancelled pick yields the empty handle),
resolve the name (given, or interactively entered; cancelled input yields
the empty handle), then ask the gateway for a handle; on success register
the session, set it active and return the handle; a gateway failure is
rethrown. -/
def createSession (env : SMEnv) (st : SMState) (name : Option String)
    (connectionId : Option String) : Except String (String × SMState) :=
  let conn : Option String :=
    match connectionId with
    | some cid => if st.connections.contains cid then some cid else none
    | none => none
  let conn2 : Option String :=
    match conn with
    | some c => some c
    | none => env.pickConn
  match conn2 with
  | none => .ok ("", st)
  | some cid =>
    let nm : Option String :=
      match name with
      | some n => some n
      | none => env.inputName
    match nm with
    | none => .ok ("", st)
    | some n =>
      match env.gwCreate with
      | .error e => .error e
      | .ok h =>
        let s : SessionInfo :=
          { name := n, handle := h, connectionId := cid, createdAt := env.now }
        .ok (h, { st with sessions := st.sessions ++ [s], active := some h })

/-- `SessionManager.getActiveSessionHandle` (sessionManager.ts lines
82-119): with no active handle, auto-create (no sessions) or prompt; with
an active handle, fail when its connection no longer exists, return it
when the liveness check passes, and otherwise remove the stale session
and auto-create a replacement named `default` on the same connection. -/
def getActiveSessionHandle (env : SMEnv) (st : SMState) :
    Except String (String × SMState) :=
  match st.active with
  | none =>
    if st.sessions.isEmpty then createSession env st none none
    else
      match env.pickedSession with
      | none => .error "No active Flink session selected."
      | some h => .ok (h, { st with active := some h })
  | some h =>
    let sess := st.sessions.find? (fun s => s.handle == h)
    let clientOk :=
      match sess with
      | some s => st.connections.contains s.connectionId
      | none => false
    if clientOk = false then .error "Session connection no longer exists."
    else if env.check h then .ok (h, st)
    else
      let connectionId := sess.map (fun s => s.connectionId)
      let st2 := removeSessionState st h
      createSession env st2 (some "default") connectionId

/-- Row deduplication of the metadata path (flinkClient.ts lines 326-337):
keep the first occurrence of each row. -/
def dedupRows (l : List Nat) : List Nat :=
  l.foldl (fun acc r => if acc.contains r then acc else acc ++ [r]) []

/-- The retry loop of `FlinkGatewayClient.executeMetadataSql`
(flinkClient.ts lines 312-322): while the current result is not `EOS` and
fewer than 20 retries happened, fetch again with the gateway-supplied
`nextResultToken` when the previous response carries one, and with token
0 otherwise. `respond` maps the call index to the outcome; returns the
(token, page) pairs requested by the loop in order, and the final page. -/
def metaLoop (respond : Nat → Except String ResultData) :
    Nat → Nat → ResultData → Except String (List (Nat × ResultData) × ResultData)
  | 0, _, cur => .ok ([], cur)
  | fuel + 1, ci, cur =>
    if cur.resultType = "EOS" then .ok ([], cur)
    else
      let tok : Nat :=
        match cur.nextResultToken with
        | some t => t
        | none => 0
      match respond ci with
      | .error e => .error e
      | .ok d =>
        match metaLoop respond fuel (ci + 1) d with
        | .error e => .error e
        | .ok (calls, fin) => .ok ((tok, d) :: calls, fin)

/-- Environment of one metadata query: submission outcome and the
call-indexed fetch outcomes. -/
structure MetaEnv where
  submit : Except String Unit
  respond : Nat → Except String ResultData

/-- `FlinkGatewayClient.executeMetadataSql` (flinkClient.ts lines
305-338): submit, fetch token 0, run the bounded retry loop, then
deduplicate the final page rows. Returns all (token, page) requests in
order together with the deduplicated rows. -/
def executeMetadataSql (env : MetaEnv) :
    Except String (List (Nat × ResultData) × List Nat) :=
  match env.submit with
  | .error e => .error e
  | .ok _ =>
    match env.respond 0 with
    | .error e => .error e
    | .ok r0 =>
      match metaLoop env.respond 20 1 r0 with
      | .error e => .error e
      | .ok (calls, fin) => .ok ((0, r0) :: calls, dedupRows fin.results)

/-- Convenience page constructor for concrete environments. -/
def mkPage (rows : List Nat) (ty : String) (q : Bool) : ResultData :=
  { results := rows, columns := [], resultKind := none, resultType := ty,
    jobID := none, nextResultUri := none, isQueryResult := q,
    nextResultToken := none }

/-- A trivially succeeding non-streaming statement environment: the first
page is a bounded one-row result. -/
def batchStmtEnv : StmtEnv :=
  { submit := .ok ()
  , fetch := fun _ => .ok (mkPage [10] "PAYLOAD" false)
  , cancelAt := fun _ => false
  , cancelWorks := .ok () }

example :
    (runStatement batchStmtEnv "SELECT 1").1 =
      [Event.stmtStart "SELECT 1", Event.fetchOk 0, Event.publish [10] none] := by decide

/-- Streaming environment whose first page holds 1001 rows and whose
first poll returns an empty end-of-stream page. -/
def bigFirstPageEnv : StmtEnv :=
  { submit := .ok ()
  , fetch := fun t =>
      if t = 0 then .ok (mkPage (List.range 1001) "PAYLOAD" true)
      else .ok (mkPage [] "EOS" true)
  , cancelAt := fun _ => false
  , cancelWorks := .ok () }

set_option maxRecDepth 10000 in
example : pubLens (runStatement bigFirstPageEnv "SELECT 1").1 = [1001, 1001] := by decide

deriving instance DecidableEq for Except

/-- Streaming environment with a job id that is cancelled before the
first polling iteration. -/
def cancelledEnv : StmtEnv :=
  { submit := .ok ()
  , fetch := fun _ =>
      .ok { mkPage [1] "PAYLOAD" true with jobID := some "job-1" }
  , cancelAt := fun _ => true
  , cancelWorks := .ok () }

example : (runStatement cancelledEnv "SELECT 1").1 =
    [Event.stmtStart "SELECT 1", Event.fetchOk 0,
     Event.publish [1] (some ⟨true, false, none⟩),
     Event.cancelJobReq "job-1", Event.cancelReq, Event.closeReq,
     Event.publish [1] (some ⟨false, true, some 0⟩),
     Event.publish [1] (some ⟨false, true, none⟩)] := by decide

example : countCompletePubs (runStatement cancelledEnv "SELECT 1").1 = 2 := by decide

/-- Streaming environment where polls 1-4 return empty pages and poll 5
fails with a transient (non-structural) error. -/
def emptyThenErrorEnv : StmtEnv :=
  { submit := .ok ()
  , fetch := fun t =>
      if t = 0 then .ok (mkPage [1] "PAYLOAD" true)
      else if t ≤ 4 then .ok (mkPage [] "PAYLOAD" true)
      else if t = 5 then .error "connection reset"
      else .ok (mkPage [] "EOS" true)
  , cancelAt := fun _ => false
  , cancelWorks := .ok () }

example : (runStatement emptyThenErrorEnv "SELECT 1").2 = .error "connection reset" := by decide
example : ((runStatement emptyThenErrorEnv "SELECT 1").1.filter
    (fun e => match e with | .fetchErr _ => true | _ => false)).length = 1 := by decide

/-- The same shape but with only three empty pages before the single
transient error, which is then tolerated and polling continues to EOS. -/
def fewEmptyThenErrorEnv : StmtEnv :=
  { submit := .ok ()
  , fetch := fun t =>
      if t = 0 then .ok (mkPage [1] "PAYLOAD" true)
      else if t ≤ 3 then .ok (mkPage [] "PAYLOAD" true)
      else if t = 4 then .error "connection reset"
      else .ok (mkPage [] "EOS" true)
  , cancelAt := fun _ => false
  , cancelWorks := .ok () }

example : (runStatement fewEmptyThenErrorEnv "SELECT 1").2 = .ok () := by decide

/-- Four empty polls, then a page with a row (resetting the shared
counter), then four more empty polls and a transient error: the error is
the fifth consecutive unproductive poll after the reset and escalates. -/
def resetThenErrorEnv : StmtEnv :=
  { submit := .ok ()
  , fetch := fun t =>
      if t = 0 then .ok (mkPage [1] "PAYLOAD" true)
      else if t ≤ 4 then .ok (mkPage [] "PAYLOAD" true)
      else if t = 5 then .ok (mkPage [2] "PAYLOAD" true)
      else if t ≤ 9 then .ok (mkPage [] "PAYLOAD" true)
      else if t = 10 then .error "boom"
      else .ok (mkPage [] "EOS" true)
  , cancelAt := fun _ => false
  , cancelWorks := .ok () }

example : (runStatement resetThenErrorEnv "SELECT 1").2 = .error "boom" := by decide

/-- Streaming environment whose first page carries a gateway-supplied
`nextResultToken` of 7, which the polling loop ignores. -/
def tokenHintEnv : StmtEnv :=
  { submit := .ok ()
  , fetch := fun t =>
      if t = 0 then
        .ok { mkPage [1] "PAYLOAD" true with nextResultToken := some 7 }
      else .ok (mkPage [] "EOS" true)
  , cancelAt := fun _ => false
  , cancelWorks := .ok () }

example : fetchTokens (runStatement tokenHintEnv "SELECT 1").1 = [0, 1] := by decide

/-- Metadata-query environment whose first response is not `EOS` and
carries no `nextResultToken`; the second response ends the stream. -/
def metaNoTokenEnv : MetaEnv :=
  { submit := .ok ()
  , respond := fun ci =>
      if ci = 0 then .ok (mkPage [5] "PAYLOAD" false)
      else .ok (mkPage [5] "EOS" false) }

example :
    (executeMetadataSql metaNoTokenEnv).map (fun p => p.1.map Prod.fst) =
      .ok [0, 0] := by decide

/-- A cell whose single statement is DROP-prefixed. -/
def dropCellEnv : CellEnv :=
  { sql := "DROP TABLE t"
  , session := .ok ()
  , stmts := fun _ => batchStmtEnv }

example : countMeta (cellExec dropCellEnv) = 0 := by decide
example : (splitStatements dropCellEnv.sql).any
    (fun s => strStartsWith (strToUpper s) "DROP") = true := by decide

/-- A cell with a CREATE statement followed by an INSERT. -/
def createInsertCellEnv : CellEnv :=
  { sql := "CREATE TABLE t (x INT); INSERT INTO t VALUES (1)"
  , session := .ok ()
  , stmts := fun _ => batchStmtEnv }

example : countMeta (cellExec createInsertCellEnv) = 1 := by decide
example : stmtStarts (cellExec createInsertCellEnv) =
    ["CREATE TABLE t (x INT)", "INSERT INTO t VALUES (1)"] := by decide
example : countEnded (cellExec createInsertCellEnv) = 1 := by decide

/-- No event of `cancelOperation` satisfies a predicate that rejects all
cancel-related constructors. -/
theorem cancelOperation_filter_none (p : Event → Bool)
    (hp4 : ∀ s, p (Event.cancelJobReq s) = false)
    (hp5 : p Event.cancelReq = false)
    (hp6 : p Event.closeReq = false)
    (j : Option String) (cw : Except String Unit) :
    (cancelOperation j cw).filter p = [] := by
  cases j <;> cases cw <;>
    simp [cancelOperation, List.filter_cons, hp4, hp5, hp6]

/-- The streaming loop emits only fetch, publish and cancel events: any
predicate rejecting all of those filters its trace to the empty list. -/
theorem streamLoop_filter_none (p : Event → Bool)
    (hp1 : ∀ t, p (Event.fetchOk t) = false)
    (hp2 : ∀ t, p (Event.fetchErr t) = false)
    (hp3 : ∀ rows m, p (Event.publish rows m) = false)
    (hp4 : ∀ s, p (Event.cancelJobReq s) = false)
    (hp5 : p Event.cancelReq = false)
    (hp6 : p Event.closeReq = false)
    (j : Option String) (cw : Except String Unit)
    (f : Nat → Except String ResultData) (c : Nat → Bool) :
    ∀ fuel i tok cE tR acc,
      ((streamLoop j cw f c fuel i tok cE tR acc).1.filter p) = [] := by
  intro fuel
  induction fuel with
  | zero => intro i tok cE tR acc; simp [streamLoop]
  | succ n ih =>
    intro i tok cE tR acc
    simp only [streamLoop]
    repeat' split
    all_goals
      simp [List.filter_append, List.filter_cons, hp1, hp2, hp3, ih,
        cancelOperation_filter_none p hp4 hp5 hp6]

/-- filterMap analog: a projection returning `none` on every event kind
the loop can emit extracts nothing from a loop trace. -/
theorem streamLoop_filterMap_none {α : Type} (g : Event → Option α)
    (hp1 : ∀ t, g (Event.fetchOk t) = none)
    (hp2 : ∀ t, g (Event.fetchErr t) = none)
    (hp3 : ∀ rows m, g (Event.publish rows m) = none)
    (hp4 : ∀ s, g (Event.cancelJobReq s) = none)
    (hp5 : g Event.cancelReq = none)
    (hp6 : g Event.closeReq = none)
    (j : Option String) (cw : Except String Unit)
    (f : Nat → Except String ResultData) (c : Nat → Bool) :
    ∀ fuel i tok cE tR acc,
      ((streamLoop j cw f c fuel i tok cE tR acc).1.filterMap g) = [] := by
  intro fuel
  induction fuel with
  | zero => intro i tok cE tR acc; simp [streamLoop]
  | succ n ih =>
    intro i tok cE tR acc
    simp only [streamLoop]
    repeat' split
    all_goals
      cases j <;> cases cw <;>
        simp [cancelOperation, List.filterMap_append, List.filterMap_cons,
          hp1, hp2, hp3, hp4, hp5, hp6, ih]

/-- A statement run emits exactly one statement-start marker. -/
theorem runStatement_stmtStarts (env : StmtEnv) (stmt : String) :
    stmtStarts (runStatement env stmt).1 = [stmt] := by
  have hloop := streamLoop_filterMap_none
    (fun e => match e with | .stmtStart s => some s | _ => none)
    (fun _ => rfl) (fun _ => rfl) (fun _ _ => rfl) (fun _ => rfl) rfl rfl
  unfold runStatement
  cases hs : env.submit with
  | error e => simp [stmtStarts]
  | ok u =>
    cases hf : env.fetch 0 with
    | error e => simp [stmtStarts]
    | ok d0 =>
      by_cases hq : d0.isQueryResult
      · simp only [hq, if_true]
        split
        all_goals
          simp [stmtStarts, List.filterMap_append, List.filterMap_cons, hloop]
      · simp [hq, stmtStarts]

/-- A statement run never calls `execution.end`. -/
theorem runStatement_countEnded (env : StmtEnv) (stmt : String) :
    countEnded (runStatement env stmt).1 = 0 := by
  have hloop := streamLoop_filter_none
    (fun e => match e with | .ended _ => true | _ => false)
    (fun _ => rfl) (fun _ => rfl) (fun _ _ => rfl) (fun _ => rfl) rfl rfl
  unfold runStatement
  cases hs : env.submit with
  | error e => simp [countEnded]
  | ok u =>
    cases hf : env.fetch 0 with
    | error e => simp [countEnded]
    | ok d0 =>
      by_cases hq : d0.isQueryResult
      · simp only [hq, if_true]
        split
        all_goals
          simp [countEnded, List.filter_append, List.filter_cons, hloop]
      · simp [hq, countEnded]

/-- A statement run never fires the metadata-changed notification. -/
theorem runStatement_countMeta (env : StmtEnv) (stmt : String) :
    countMeta (runStatement env stmt).1 = 0 := by
  have hloop := streamLoop_filter_none
    (fun e => e == Event.metaChanged)
    (fun _ => rfl) (fun _ => rfl) (fun _ _ => rfl) (fun _ => rfl) rfl rfl
  unfold runStatement
  cases hs : env.submit with
  | error e => simp [countMeta]
  | ok u =>
    cases hf : env.fetch 0 with
    | error e => simp [countMeta]
    | ok d0 =>
      by_cases hq : d0.isQueryResult
      · simp only [hq, if_true]
        split
        all_goals
          simp [countMeta, List.filter_append, List.filter_cons, hloop]
      · simp [hq, countMeta]

/-- The sequential statement loop calls `execution.end` never. -/
theorem runStmts_countEnded (envs : Nat → StmtEnv) :
    ∀ l i, countEnded (runStmts envs l i).1 = 0 := by
  intro l
  induction l with
  | nil => intro i; simp [runStmts, countEnded]
  | cons s rest ih =>
    intro i
    simp only [runStmts]
    split
    · simp [runStatement_countEnded]
    · have h1 := runStatement_countEnded (envs i) s
      have h2 := ih (i + 1)
      simp only [countEnded, List.filter_append, List.length_append] at h1 h2 ⊢
      omega

/-- The sequential statement loop never fires the metadata-changed
notification itself. -/
theorem runStmts_countMeta (envs : Nat → StmtEnv) :
    ∀ l i, countMeta (runStmts envs l i).1 = 0 := by
  intro l
  induction l with
  | nil => intro i; simp [runStmts, countMeta]
  | cons s rest ih =>
    intro i
    simp only [runStmts]
    split
    · simp [runStatement_countMeta]
    · have h1 := runStatement_countMeta (envs i) s
      have h2 := ih (i + 1)
      simp only [countMeta, List.filter_append, List.length_append] at h1 h2 ⊢
      omega

/-- The statements entered by the sequential loop are an initial segment
of the statement list (all of it when every statement succeeds). -/
theorem runStmts_stmtStarts (envs : Nat → StmtEnv) :
    ∀ l i, (∃ t, stmtStarts (runStmts envs l i).1 ++ t = l) ∧
      ((runStmts envs l i).2 = .ok () → stmtStarts (runStmts envs l i).1 = l) := by
  intro l
  induction l with
  | nil => intro i; simp [runStmts, stmtStarts]
  | cons s rest ih =>
    intro i
    simp only [runStmts]
    split
    case h_1 e heq =>
      constructor
      · refine ⟨rest, ?_⟩
        simp [runStatement_stmtStarts]
      · intro hok
        simp at hok
    case h_2 u heq =>
      have h1 := runStatement_stmtStarts (envs i) s
      obtain ⟨⟨t, ht⟩, hok⟩ := ih (i + 1)
      constructor
      · refine ⟨t, ?_⟩
        simp [stmtStarts, List.filterMap_append] at ht ⊢
        simp [stmtStarts] at h1
        simp [h1, ht]
      · intro hall
        simp [stmtStarts, List.filterMap_append] at hok ⊢
        simp [stmtStarts] at h1
        simp [h1, hok hall]

/-- `cancelOperation` publishes nothing. -/
theorem cancelOperation_pubLens (j : Option String) (cw : Except String Unit) :
    pubLens (cancelOperation j cw) = [] := by
  cases j <;> cases cw <;> rfl

/-- `cancelOperation` carries no offset publishes. -/
theorem cancelOperation_osums (j : Option String) (cw : Except String Unit) :
    osums (cancelOperation j cw) = [] := by
  cases j <;> cases cw <;> rfl

/-- `cancelOperation` fetches nothing. -/
theorem cancelOperation_fetchTokens (j : Option String) (cw : Except String Unit) :
    fetchTokens (cancelOperation j cw) = [] := by
  cases j <;> cases cw <;> rfl

/-- `cancelOperation` never emits a complete-marked publish. -/
theorem cancelOperation_completePubs (j : Option String) (cw : Except String Unit) :
    (cancelOperation j cw).filter isCompletePub = [] := by
  cases j <;> cases cw <;> rfl

/-- Rewriting rules for the trace observers on explicit events. -/
@[simp] theorem pubLens_nil : pubLens [] = [] := rfl

@[simp] theorem pubLens_append (a b : List Event) :
    pubLens (a ++ b) = pubLens a ++ pubLens b := List.filterMap_append a b _

@[simp] theorem pubLens_fetchOk (t : Nat) (l : List Event) :
    pubLens (Event.fetchOk t :: l) = pubLens l := rfl

@[simp] theorem pubLens_fetchErr (t : Nat) (l : List Event) :
    pubLens (Event.fetchErr t :: l) = pubLens l := rfl

@[simp] theorem pubLens_publish (rows : List Nat) (m : Option StreamMeta) (l : List Event) :
    pubLens (Event.publish rows m :: l) = rows.length :: pubLens l := rfl

@[simp] theorem pubLens_cancelJobReq (s : String) (l : List Event) :
    pubLens (Event.cancelJobReq s :: l) = pubLens l := rfl

@[simp] theorem pubLens_cancelReq (l : List Event) :
    pubLens (Event.cancelReq :: l) = pubLens l := rfl

@[simp] theorem pubLens_closeReq (l : List Event) :
    pubLens (Event.closeReq :: l) = pubLens l := rfl

@[simp] theorem pubLens_stmtStart (s : String) (l : List Event) :
    pubLens (Event.stmtStart s :: l) = pubLens l := rfl

@[simp] theorem osums_nil : osums [] = [] := rfl

@[simp] theorem osums_append (a b : List Event) :
    osums (a ++ b) = osums a ++ osums b := List.filterMap_append a b _

@[simp] theorem osums_fetchOk (t : Nat) (l : List Event) :
    osums (Event.fetchOk t :: l) = osums l := rfl

@[simp] theorem osums_fetchErr (t : Nat) (l : List Event) :
    osums (Event.fetchErr t :: l) = osums l := rfl

@[simp] theorem osums_publish_none (rows : List Nat) (l : List Event) :
    osums (Event.publish rows none :: l) = osums l := rfl

@[simp] theorem osums_publish_nooff (rows : List Nat) (a b : Bool) (l : List Event) :
    osums (Event.publish rows (some ⟨a, b, none⟩) :: l) = osums l := rfl

@[simp] theorem osums_publish_off (rows : List Nat) (a b : Bool) (off : Nat) (l : List Event) :
    osums (Event.publish rows (some ⟨a, b, some off⟩) :: l) =
      (off + rows.length) :: osums l := rfl

@[simp] theorem osums_cancelJobReq (s : String) (l : List Event) :
    osums (Event.cancelJobReq s :: l) = osums l := rfl

@[simp] theorem osums_cancelReq (l : List Event) :
    osums (Event.cancelReq :: l) = osums l := rfl

@[simp] theorem osums_closeReq (l : List Event) :
    osums (Event.closeReq :: l) = osums l := rfl

@[simp] theorem osums_stmtStart (s : String) (l : List Event) :
    osums (Event.stmtStart s :: l) = osums l := rfl

@[simp] theorem fetchTokens_nil : fetchTokens [] = [] := rfl

@[simp] theorem fetchTokens_append (a b : List Event) :
    fetchTokens (a ++ b) = fetchTokens a ++ fetchTokens b := List.filterMap_append a b _

@[simp] theorem fetchTokens_fetchOk (t : Nat) (l : List Event) :
    fetchTokens (Event.fetchOk t :: l) = t :: fetchTokens l := rfl

@[simp] theorem fetchTokens_fetchErr (t : Nat) (l : List Event) :
    fetchTokens (Event.fetchErr t :: l) = t :: fetchTokens l := rfl

@[simp] theorem fetchTokens_publish (rows : List Nat) (m : Option StreamMeta) (l : List Event) :
    fetchTokens (Event.publish rows m :: l) = fetchTokens l := rfl

@[simp] theorem fetchTokens_cancelJobReq (s : String) (l : List Event) :
    fetchTokens (Event.cancelJobReq s :: l) = fetchTokens l := rfl

@[simp] theorem fetchTokens_cancelReq (l : List Event) :
    fetchTokens (Event.cancelReq :: l) = fetchTokens l := rfl

@[simp] theorem fetchTokens_closeReq (l : List Event) :
    fetchTokens (Event.closeReq :: l) = fetchTokens l := rfl

@[simp] theorem fetchTokens_stmtStart (s : String) (l : List Event) :
    fetchTokens (Event.stmtStart s :: l) = fetchTokens l := rfl

@[simp] theorem countCompletePubs_nil : countCompletePubs [] = 0 := rfl

@[simp] theorem countCompletePubs_append (a b : List Event) :
    countCompletePubs (a ++ b) = countCompletePubs a + countCompletePubs b := by
  simp [countCompletePubs, List.filter_append]

@[simp] theorem countCompletePubs_fetchOk (t : Nat) (l : List Event) :
    countCompletePubs (Event.fetchOk t :: l) = countCompletePubs l := rfl

@[simp] theorem countCompletePubs_fetchErr (t : Nat) (l : List Event) :
    countCompletePubs (Event.fetchErr t :: l) = countCompletePubs l := rfl

@[simp] theorem countCompletePubs_publish_none (rows : List Nat) (l : List Event) :
    countCompletePubs (Event.publish rows none :: l) = countCompletePubs l := rfl

@[simp] theorem countCompletePubs_publish_incomplete (rows : List Nat) (a : Bool)
    (o : Option Nat) (l : List Event) :
    countCompletePubs (Event.publish rows (some ⟨a, false, o⟩) :: l) =
      countCompletePubs l := rfl

@[simp] theorem countCompletePubs_publish_complete (rows : List Nat) (a : Bool)
    (o : Option Nat) (l : List Event) :
    countCompletePubs (Event.publish rows (some ⟨a, true, o⟩) :: l) =
      countCompletePubs l + 1 := by
  simp [countCompletePubs, List.filter_cons, isCompletePub]

@[simp] theorem countCompletePubs_cancelJobReq (s : String) (l : List Event) :
    countCompletePubs (Event.cancelJobReq s :: l) = countCompletePubs l := rfl

@[simp] theorem countCompletePubs_cancelReq (l : List Event) :
    countCompletePubs (Event.cancelReq :: l) = countCompletePubs l := rfl

@[simp] theorem countCompletePubs_closeReq (l : List Event) :
    countCompletePubs (Event.closeReq :: l) = countCompletePubs l := rfl

@[simp] theorem countCompletePubs_stmtStart (s : String) (l : List Event) :
    countCompletePubs (Event.stmtStart s :: l) = countCompletePubs l := rfl

/-- Once the buffer respects the 1000-row cap, every buffer published by
the polling loop and the final buffer respect it as well: the append
branch re-applies the sliding-window slice on every growth. -/
theorem streamLoop_cap (j : Option String) (cw : Except String Unit)
    (f : Nat → Except String ResultData) (c : Nat → Bool) :
    ∀ fuel i tok cE tR acc, acc.length ≤ 1000 →
      (∀ p ∈ pubLens (streamLoop j cw f c fuel i tok cE tR acc).1, p ≤ 1000) ∧
      (streamLoop j cw f c fuel i tok cE tR acc).2.2.length ≤ 1000 := by
  intro fuel
  induction fuel with
  | zero =>
    intro i tok cE tR acc hacc
    simpa [streamLoop] using hacc
  | succ n ih =>
    intro i tok cE tR acc hacc
    simp only [streamLoop]
    by_cases hc : c i = true
    · rw [if_pos hc]
      refine ⟨?_, hacc⟩
      intro p hp
      simp [cancelOperation_pubLens] at hp
      omega
    · rw [if_neg hc]
      cases hf : f (tok + 1) with
      | error msg =>
        dsimp only
        by_cases hfat : fatalErr msg = true
        · rw [if_pos hfat]
          refine ⟨?_, hacc⟩
          intro p hp
          simp at hp
        · rw [if_neg hfat]
          by_cases hcnt : cE + 1 ≥ 5
          · rw [if_pos hcnt]
            refine ⟨?_, hacc⟩
            intro p hp
            simp at hp
          · rw [if_neg hcnt]
            have hrec := ih (i + 1) (tok + 1) (cE + 1) tR acc hacc
            refine ⟨?_, hrec.2⟩
            intro p hp
            simp only [pubLens_fetchErr] at hp
            exact hrec.1 p hp
      | ok d =>
        dsimp only
        by_cases hE : d.resultType = "ERROR"
        · rw [if_pos hE]
          by_cases hcnt : cE + 1 ≥ 5
          · rw [if_pos hcnt]
            refine ⟨?_, hacc⟩
            intro p hp
            simp at hp
          · rw [if_neg hcnt]
            have hrec := ih (i + 1) (tok + 1) (cE + 1) tR acc hacc
            refine ⟨?_, hrec.2⟩
            intro p hp
            simp only [pubLens_fetchOk] at hp
            exact hrec.1 p hp
        · rw [if_neg hE]
          by_cases hC : d.resultType = "CANCELED"
          · rw [if_pos hC]
            refine ⟨?_, hacc⟩
            intro p hp
            simp at hp
          · rw [if_neg hC]
            by_cases hlen : d.results.length > 0
            · rw [if_pos hlen]
              set acc2 := (if (acc ++ d.results).length > 1000 then
                  (acc ++ d.results).drop ((acc ++ d.results).length - 1000)
                else acc ++ d.results) with hacc2def
              have hacc2 : acc2.length ≤ 1000 := by
                rw [hacc2def]
                by_cases hbig : (acc ++ d.results).length > 1000
                · rw [if_pos hbig]
                  rw [List.length_drop]
                  omega
                · rw [if_neg hbig]
                  omega
              by_cases hEOS : d.resultType = "EOS" ∨ d.resultType = "FINISHED"
              · rw [if_pos hEOS]
                refine ⟨?_, hacc2⟩
                intro p hp
                simp only [pubLens_fetchOk, pubLens_publish, pubLens_nil,
                  List.mem_cons, List.not_mem_nil, or_false] at hp
                omega
              · rw [if_neg hEOS]
                have hrec := ih (i + 1) (tok + 1) 0 (tR + d.results.length) acc2 hacc2
                refine ⟨?_, hrec.2⟩
                intro p hp
                simp only [pubLens_fetchOk, pubLens_publish, List.mem_cons] at hp
                rcases hp with rfl | hp
                · exact hacc2
                · exact hrec.1 p hp
            · rw [if_neg hlen]
              by_cases hEOS : d.resultType = "EOS" ∨ d.resultType = "FINISHED"
              · rw [if_pos hEOS]
                refine ⟨?_, hacc⟩
                intro p hp
                simp at hp
              · rw [if_neg hEOS]
                have hrec := ih (i + 1) (tok + 1) (cE + 1) tR acc hacc
                refine ⟨?_, hrec.2⟩
                intro p hp
                simp only [pubLens_fetchOk] at hp
                exact hrec.1 p hp

/-- Every publish of the polling loop that carries an offset satisfies
`offset + buffer.length = totalRows` at the moment of publishing, and
`totalRows` only grows: the sequence of `offset + length` values over the
offset-carrying publishes is sorted (non-decreasing) and bounded below by
the entry value of `totalRows`. -/
theorem streamLoop_sums (j : Option String) (cw : Except String Unit)
    (f : Nat → Except String ResultData) (c : Nat → Bool) :
    ∀ fuel i tok cE tR acc, acc.length ≤ tR →
      List.Sorted (· ≤ ·) (osums (streamLoop j cw f c fuel i tok cE tR acc).1) ∧
      (∀ s ∈ osums (streamLoop j cw f c fuel i tok cE tR acc).1, tR ≤ s) := by
  intro fuel
  induction fuel with
  | zero =>
    intro i tok cE tR acc hacc
    simp [streamLoop]
  | succ n ih =>
    intro i tok cE tR acc hacc
    simp only [streamLoop]
    by_cases hc : c i = true
    · rw [if_pos hc]
      have hsum : tR - acc.length + acc.length = tR := Nat.sub_add_cancel hacc
      constructor
      · simp [cancelOperation_osums, hsum]
      · intro s hs
        simp [cancelOperation_osums, hsum] at hs
        omega
    · rw [if_neg hc]
      cases hf : f (tok + 1) with
      | error msg =>
        dsimp only
        by_cases hfat : fatalErr msg = true
        · rw [if_pos hfat]
          simp
        · rw [if_neg hfat]
          by_cases hcnt : cE + 1 ≥ 5
          · rw [if_pos hcnt]
            simp
          · rw [if_neg hcnt]
            have hrec := ih (i + 1) (tok + 1) (cE + 1) tR acc hacc
            simpa using hrec
      | ok d =>
        dsimp only
        by_cases hE : d.resultType = "ERROR"
        · rw [if_pos hE]
          by_cases hcnt : cE + 1 ≥ 5
          · rw [if_pos hcnt]
            simp
          · rw [if_neg hcnt]
            have hrec := ih (i + 1) (tok + 1) (cE + 1) tR acc hacc
            simpa using hrec
        · rw [if_neg hE]
          by_cases hC : d.resultType = "CANCELED"
          · rw [if_pos hC]
            simp
          · rw [if_neg hC]
            by_cases hlen : d.results.length > 0
            · rw [if_pos hlen]
              set acc2 := (if (acc ++ d.results).length > 1000 then
                  (acc ++ d.results).drop ((acc ++ d.results).length - 1000)
                else acc ++ d.results) with hacc2def
              have hle2 : acc2.length ≤ tR + d.results.length := by
                rw [hacc2def]
                by_cases hbig : (acc ++ d.results).length > 1000
                · rw [if_pos hbig]
                  rw [List.length_drop]
                  simp only [List.length_append] at hbig ⊢
                  omega
                · rw [if_neg hbig]
                  simp only [List.length_append]
                  omega
              have hsum : tR + d.results.length - acc2.length + acc2.length =
                  tR + d.results.length := Nat.sub_add_cancel hle2
              by_cases hEOS : d.resultType = "EOS" ∨ d.resultType = "FINISHED"
              · rw [if_pos hEOS]
                constructor
                · simp [hsum]
                · intro s hs
                  simp [hsum] at hs
                  omega
              · rw [if_neg hEOS]
                have hrec := ih (i + 1) (tok + 1) 0 (tR + d.results.length) acc2 hle2
                constructor
                · simp only [osums_fetchOk, osums_publish_off, hsum]
                  exact List.sorted_cons.mpr ⟨fun b hb => hrec.2 b hb, hrec.1⟩
                · intro s hs
                  simp only [osums_fetchOk, osums_publish_off, hsum,
                    List.mem_cons] at hs
                  rcases hs with rfl | hs
                  · omega
                  · have := hrec.2 s hs
                    omega
            · rw [if_neg hlen]
              by_cases hEOS : d.resultType = "EOS" ∨ d.resultType = "FINISHED"
              · rw [if_pos hEOS]
                simp
              · rw [if_neg hEOS]
                have hrec := ih (i + 1) (tok + 1) (cE + 1) tR acc hacc
                simpa using hrec

/-- When the polling loop exits because the cancellation signal was
observed, its trace ends with the remote cancel sequence followed by one
final complete-marked publish of the current buffer (with the eviction
offset); everything before contains no cancel request and no
complete-marked publish, so no fetch happens after the cancellation is
observed. -/
theorem streamLoop_cancelShape (j : Option String) (cw : Except String Unit)
    (f : Nat → Except String ResultData) (c : Nat → Bool) :
    ∀ fuel i tok cE tR acc,
      (streamLoop j cw f c fuel i tok cE tR acc).2.1 = .canceledUser →
      ∃ evs0 off,
        (streamLoop j cw f c fuel i tok cE tR acc).1 =
          evs0 ++ (cancelOperation j cw ++
            [Event.publish (streamLoop j cw f c fuel i tok cE tR acc).2.2
              (some ⟨false, true, some off⟩)]) ∧
        evs0.filter isCompletePub = [] ∧
        (∀ e ∈ evs0, e ≠ Event.cancelReq) := by
  intro fuel
  induction fuel with
  | zero =>
    intro i tok cE tR acc hexit
    simp [streamLoop] at hexit
  | succ n ih =>
    intro i tok cE tR acc hexit
    simp only [streamLoop] at hexit ⊢
    by_cases hc : c i = true
    · rw [if_pos hc] at hexit ⊢
      exact ⟨[], tR - acc.length, by simp, by simp, by simp⟩
    · rw [if_neg hc] at hexit ⊢
      cases hf : f (tok + 1) with
      | error msg =>
        rw [hf] at hexit
        dsimp only at hexit ⊢
        by_cases hfat : fatalErr msg = true
        · rw [if_pos hfat] at hexit
          simp at hexit
        · rw [if_neg hfat] at hexit ⊢
          by_cases hcnt : cE + 1 ≥ 5
          · rw [if_pos hcnt] at hexit
            simp at hexit
          · rw [if_neg hcnt] at hexit ⊢
            obtain ⟨evs0, off, heq, hfil, hnc⟩ := ih (i + 1) (tok + 1) (cE + 1) tR acc hexit
            refine ⟨Event.fetchErr (tok + 1) :: evs0, off, ?_, ?_, ?_⟩
            · simp [heq]
            · simpa [List.filter_cons, isCompletePub] using hfil
            · intro e he
              rcases List.mem_cons.mp he with rfl | he
              · simp
              · exact hnc e he
      | ok d =>
        rw [hf] at hexit
        dsimp only at hexit ⊢
        by_cases hE : d.resultType = "ERROR"
        · rw [if_pos hE] at hexit ⊢
          by_cases hcnt : cE + 1 ≥ 5
          · rw [if_pos hcnt] at hexit
            simp at hexit
          · rw [if_neg hcnt] at hexit ⊢
            obtain ⟨evs0, off, heq, hfil, hnc⟩ := ih (i + 1) (tok + 1) (cE + 1) tR acc hexit
            refine ⟨Event.fetchOk (tok + 1) :: evs0, off, ?_, ?_, ?_⟩
            · simp [heq]
            · simpa [List.filter_cons, isCompletePub] using hfil
            · intro e he
              rcases List.mem_cons.mp he with rfl | he
              · simp
              · exact hnc e he
        · rw [if_neg hE] at hexit ⊢
          by_cases hC : d.resultType = "CANCELED"
          · rw [if_pos hC] at hexit
            simp at hexit
          · rw [if_neg hC] at hexit ⊢
            by_cases hlen : d.results.length > 0
            · rw [if_pos hlen] at hexit ⊢
              set acc2 := (if (acc ++ d.results).length > 1000 then
                  (acc ++ d.results).drop ((acc ++ d.results).length - 1000)
                else acc ++ d.results) with hacc2def
              by_cases hEOS : d.resultType = "EOS" ∨ d.resultType = "FINISHED"
              · rw [if_pos hEOS] at hexit
                simp at hexit
              · rw [if_neg hEOS] at hexit ⊢
                obtain ⟨evs0, off, heq, hfil, hnc⟩ :=
                  ih (i + 1) (tok + 1) 0 (tR + d.results.length) acc2 hexit
                refine ⟨Event.fetchOk (tok + 1) ::
                  Event.publish acc2
                    (some ⟨true, false, some (tR + d.results.length - acc2.length)⟩) ::
                  evs0, off, ?_, ?_, ?_⟩
                · simp [heq]
                · simpa [List.filter_cons, isCompletePub] using hfil
                · intro e he
                  rcases List.mem_cons.mp he with rfl | he
                  · simp
                  · rcases List.mem_cons.mp he with rfl | he
                    · simp
                    · exact hnc e he
            · rw [if_neg hlen] at hexit ⊢
              by_cases hEOS : d.resultType = "EOS" ∨ d.resultType = "FINISHED"
              · rw [if_pos hEOS] at hexit
                simp at hexit
              · rw [if_neg hEOS] at hexit ⊢
                obtain ⟨evs0, off, heq, hfil, hnc⟩ := ih (i + 1) (tok + 1) (cE + 1) tR acc hexit
                refine ⟨Event.fetchOk (tok + 1) :: evs0, off, ?_, ?_, ?_⟩
                · simp [heq]
                · simpa [List.filter_cons, isCompletePub] using hfil
                · intro e he
                  rcases List.mem_cons.mp he with rfl | he
                  · simp
                  · exact hnc e he

/-- `n` consecutive naturals starting at `s`. -/
def consecutiveFrom : Nat → Nat → List Nat
  | _, 0 => []
  | s, n + 1 => s :: consecutiveFrom (s + 1) n

/-- The polling loop requests tokens `tok+1, tok+2, ...` consecutively,
one per iteration, never consulting `nextResultToken`. -/
theorem streamLoop_tokens (j : Option String) (cw : Except String Unit)
    (f : Nat → Except String ResultData) (c : Nat → Bool) :
    ∀ fuel i tok cE tR acc, ∃ n,
      fetchTokens (streamLoop j cw f c fuel i tok cE tR acc).1 =
        consecutiveFrom (tok + 1) n := by
  intro fuel
  induction fuel with
  | zero =>
    intro i tok cE tR acc
    exact ⟨0, by simp [streamLoop, consecutiveFrom]⟩
  | succ n ih =>
    intro i tok cE tR acc
    simp only [streamLoop]
    by_cases hc : c i = true
    · rw [if_pos hc]
      exact ⟨0, by simp [cancelOperation_fetchTokens, consecutiveFrom]⟩
    · rw [if_neg hc]
      cases hf : f (tok + 1) with
      | error msg =>
        dsimp only
        by_cases hfat : fatalErr msg = true
        · rw [if_pos hfat]
          exact ⟨1, by simp [consecutiveFrom]⟩
        · rw [if_neg hfat]
          by_cases hcnt : cE + 1 ≥ 5
          · rw [if_pos hcnt]
            exact ⟨1, by simp [consecutiveFrom]⟩
          · rw [if_neg hcnt]
            obtain ⟨m, hm⟩ := ih (i + 1) (tok + 1) (cE + 1) tR acc
            exact ⟨m + 1, by simp [consecutiveFrom, hm]⟩
      | ok d =>
        dsimp only
        by_cases hE : d.resultType = "ERROR"
        · rw [if_pos hE]
          by_cases hcnt : cE + 1 ≥ 5
          · rw [if_pos hcnt]
            exact ⟨1, by simp [consecutiveFrom]⟩
          · rw [if_neg hcnt]
            obtain ⟨m, hm⟩ := ih (i + 1) (tok + 1) (cE + 1) tR acc
            exact ⟨m + 1, by simp [consecutiveFrom, hm]⟩
        · rw [if_neg hE]
          by_cases hC : d.resultType = "CANCELED"
          · rw [if_pos hC]
            exact ⟨1, by simp [consecutiveFrom]⟩
          · rw [if_neg hC]
            by_cases hlen : d.results.length > 0
            · rw [if_pos hlen]
              by_cases hEOS : d.resultType = "EOS" ∨ d.resultType = "FINISHED"
              · rw [if_pos hEOS]
                exact ⟨1, by simp [consecutiveFrom]⟩
              · rw [if_neg hEOS]
                obtain ⟨m, hm⟩ := ih (i + 1) (tok + 1) 0 (tR + d.results.length)
                  (if (acc ++ d.results).length > 1000 then
                    (acc ++ d.results).drop ((acc ++ d.results).length - 1000)
                  else acc ++ d.results)
                exact ⟨m + 1, by
                  simp only [fetchTokens_fetchOk, fetchTokens_publish,
                    consecutiveFrom, hm]⟩
            · rw [if_neg hlen]
              by_cases hEOS : d.resultType = "EOS" ∨ d.resultType = "FINISHED"
              · rw [if_pos hEOS]
                exact ⟨1, by simp [consecutiveFrom]⟩
              · rw [if_neg hEOS]
                obtain ⟨m, hm⟩ := ih (i + 1) (tok + 1) (cE + 1) tR acc
                exact ⟨m + 1, by simp [consecutiveFrom, hm]⟩

/-- The token the metadata retry loop uses next, given the previous
response: the gateway-supplied `nextResultToken` when present, else 0. -/
def nextTok (d : ResultData) : Nat :=
  match d.nextResultToken with
  | some t => t
  | none => 0

/-- Every consecutive pair of metadata-loop calls satisfies: the token of
the later call is `nextResultToken` of the earlier response when present,
and 0 otherwise (the loop re-fetches token 0 rather than incrementing). -/
theorem metaLoop_chain (respond : Nat → Except String ResultData) :
    ∀ fuel ci cur calls fin,
      metaLoop respond fuel ci cur = .ok (calls, fin) →
      ∀ t, List.Chain' (fun p q => q.1 = nextTok p.2) ((t, cur) :: calls) := by
  intro fuel
  induction fuel with
  | zero =>
    intro ci cur calls fin h t
    simp only [metaLoop, Except.ok.injEq, Prod.mk.injEq] at h
    obtain ⟨h1, h2⟩ := h
    subst h1
    simp
  | succ n ih =>
    intro ci cur calls fin h t
    simp only [metaLoop] at h
    by_cases hE : cur.resultType = "EOS"
    · rw [if_pos hE] at h
      simp only [Except.ok.injEq, Prod.mk.injEq] at h
      obtain ⟨h1, h2⟩ := h
      subst h1
      simp
    · rw [if_neg hE] at h
      cases hr : respond ci with
      | error e =>
        rw [hr] at h
        simp at h
      | ok d =>
        rw [hr] at h
        dsimp only at h
        cases hm : metaLoop respond n (ci + 1) d with
        | error e =>
          rw [hm] at h
          simp at h
        | ok pr =>
          obtain ⟨calls1, fin1⟩ := pr
          rw [hm] at h
          simp only [Except.ok.injEq, Prod.mk.injEq] at h
          obtain ⟨h1, h2⟩ := h
          subst h1
          refine List.chain'_cons.mpr ⟨rfl, ?_⟩
          exact ih (ci + 1) d calls1 fin1 hm _

/-- Whether a loop exit came from an escalated error (the rethrow at
notebookController.ts line 249 path). -/
def failedExit : StreamExit → Bool
  | .failed _ => true
  | _ => false

/-- The statement outcome induced by a loop exit: only an escalated error
makes the statement fail. -/
def exitOutcome : StreamExit → Except String Unit
  | .failed e => .error e
  | _ => .ok ()

/-- The polling-loop run performed by a streaming statement, with the
entry state of `_doExecution`: token 0, `pollCount` 0, empty-counter 0,
`totalRows` and buffer from the first page, `maxPolls` 1000. -/
def streamRun (env : StmtEnv) (d0 : ResultData) : List Event × StreamExit × List Nat :=
  streamLoop d0.jobID env.cancelWorks env.fetch env.cancelAt 1000 0 0 0
    d0.results.length d0.results

/-- Decomposition of a streaming statement run: the initial events, the
loop trace, and (except when the loop escalated an error) the final
complete-marked publish; the statement outcome mirrors the loop exit. -/
theorem runStatement_decomp (env : StmtEnv) (stmt : String) (d0 : ResultData)
    (hs : env.submit = .ok ()) (hf : env.fetch 0 = .ok d0)
    (hq : d0.isQueryResult = true) :
    runStatement env stmt =
      ([Event.stmtStart stmt, Event.fetchOk 0,
        Event.publish d0.results (some ⟨true, false, none⟩)] ++
        (streamRun env d0).1 ++
        (if failedExit (streamRun env d0).2.1 then []
         else [Event.publish (streamRun env d0).2.2 (some ⟨false, true, none⟩)]),
       exitOutcome (streamRun env d0).2.1) := by
  unfold runStatement streamRun
  rw [hs]
  dsimp only
  rw [hf]
  dsimp only
  rw [hq]
  cases hx : (streamLoop d0.jobID env.cancelWorks env.fetch env.cancelAt 1000 0 0 0
      d0.results.length d0.results).2.1 <;>
    simp [failedExit, exitOutcome, hx]

/-- Decomposition of a batch (non-streaming) statement run: the first
page is fetched and published once, with no metadata, and the statement
succeeds; no polling loop runs. -/
theorem runStatement_batch (env : StmtEnv) (stmt : String) (d0 : ResultData)
    (hs : env.submit = .ok ()) (hf : env.fetch 0 = .ok d0)
    (hq : d0.isQueryResult = false) :
    runStatement env stmt =
      ([Event.stmtStart stmt, Event.fetchOk 0, Event.publish d0.results none],
       .ok ()) := by
  unfold runStatement
  rw [hs]
  dsimp only
  rw [hf]
  dsimp only
  rw [hq]
  simp

/-- C1: For every statement execution driven by the notebook controller
execution function, exactly one terminal state is reached: on every
control path (empty cell, session failure, statement failure, normal
completion, cancellation break, EOS/FINISHED/CANCELED results, poll-error
escalation) `execution.end` is called exactly once — with success for the
finished and canceled outcomes and with failure for the failed one. -/
theorem claim1_exactly_one_terminal (env : CellEnv) :
    countEnded (cellExec env) = 1 := by
  unfold cellExec
  cases hs : env.session with
  | error e => simp [countEnded]
  | ok u =>
    dsimp only
    by_cases hempty : (splitStatements env.sql).isEmpty
    · rw [if_pos hempty]
      by_cases hcr : hasCreateStatement (splitStatements env.sql) = true
      · rw [if_pos hcr]
        simp [countEnded]
      · rw [if_neg hcr]
        simp [countEnded]
    · rw [if_neg hempty]
      have hrs := runStmts_countEnded env.stmts (splitStatements env.sql) 0
      cases ho : (runStmts env.stmts (splitStatements env.sql) 0).2 with
      | error e =>
        dsimp only
        by_cases hcr : hasCreateStatement (splitStatements env.sql) = true
        · rw [if_pos hcr]
          simp only [countEnded, List.filter_append, List.length_append] at hrs ⊢
          simp [hrs]
        · rw [if_neg hcr]
          simp only [countEnded, List.filter_append, List.length_append] at hrs ⊢
          simp [hrs]
      | ok v =>
        dsimp only
        by_cases hcr : hasCreateStatement (splitStatements env.sql) = true
        · rw [if_pos hcr]
          simp only [countEnded, List.filter_append, List.length_append] at hrs ⊢
          simp [hrs]
        · rw [if_neg hcr]
          simp only [countEnded, List.filter_append, List.length_append] at hrs ⊢
          simp [hrs]

/-- C3 counterexample: a bounded (non-streaming) statement whose result
has a second page (rows `[20]`, reachable at token 1 with `EOS`): the
engine publishes exactly one buffer containing only the first page rows
`[10]` and never fetches token 1, refuting the claim that batch
executions poll until EOS and accumulate every page. -/
def batchTwoPagesEnv : StmtEnv :=
  { submit := .ok ()
  , fetch := fun t =>
      if t = 0 then .ok (mkPage [10] "PAYLOAD" false)
      else .ok (mkPage [20] "EOS" false)
  , cancelAt := fun _ => false
  , cancelWorks := .ok () }

/-- C3 is false on the code: with a second page available, the final
published buffer is `[10]` (the first page only) and token 1 is never
fetched, while the claim requires the buffer to contain every row of
every page. -/
theorem claim3_counterexample :
    runStatement batchTwoPagesEnv "SELECT 1" =
      ([Event.stmtStart "SELECT 1", Event.fetchOk 0, Event.publish [10] none],
        Except.ok ()) ∧
    fetchTokens (runStatement batchTwoPagesEnv "SELECT 1").1 = [0] ∧
    batchTwoPagesEnv.fetch 1 = .ok (mkPage [20] "EOS" false) ∧
    ((runStatement batchTwoPagesEnv "SELECT 1").1.filter
      (fun e => match e with
        | .publish rows _ => rows.contains 20
        | _ => false)) = [] := by
  refine ⟨rfl, rfl, rfl, by decide⟩

/-- C3 amended: for every batch execution (isQueryResult = false), the
engine fetches only the first page (token 0), publishes it exactly once
and uncapped, does not poll further pages, and the statement succeeds. -/
theorem claim3_amended_batch_single_fetch (env : StmtEnv) (stmt : String)
    (d0 : ResultData) (hs : env.submit = .ok ()) (hf : env.fetch 0 = .ok d0)
    (hq : d0.isQueryResult = false) :
    runStatement env stmt =
      ([Event.stmtStart stmt, Event.fetchOk 0, Event.publish d0.results none],
        Except.ok ()) ∧
    fetchTokens (runStatement env stmt).1 = [0] := by
  have h := runStatement_batch env stmt d0 hs hf hq
  refine ⟨h, ?_⟩
  rw [h]
  rfl

/-- C3 witness: the amended statement at the concrete one-row batch
environment. -/
theorem claim3_witness :
    runStatement batchStmtEnv "SELECT 1" =
      ([Event.stmtStart "SELECT 1", Event.fetchOk 0, Event.publish [10] none],
        Except.ok ()) ∧
    fetchTokens (runStatement batchStmtEnv "SELECT 1").1 = [0] :=
  claim3_amended_batch_single_fetch batchStmtEnv "SELECT 1"
    (mkPage [10] "PAYLOAD" false) rfl rfl rfl

/-- C10: `fetchResults` totalizes missing fields: a missing `results`
object yields empty row and column arrays, a missing `resultType` is
reported as PAYLOAD, and a missing `isQueryResult` is reported as false
(classifying the statement as bounded). -/
theorem claim10_fetchResults_totalizes (r : RawResponse) :
    (r.results = none →
      (fetchResultsMap r).results = [] ∧ (fetchResultsMap r).columns = []) ∧
    (r.resultType = none → (fetchResultsMap r).resultType = "PAYLOAD") ∧
    (r.isQueryResult = none → (fetchResultsMap r).isQueryResult = false) := by
  refine ⟨fun h => ?_, fun h => ?_, fun h => ?_⟩ <;> simp [fetchResultsMap, h]

/-- The fully-empty raw gateway response. -/
def emptyRaw : RawResponse :=
  { results := none, resultKind := none, resultType := none, jobID := none,
    nextResultUri := none, isQueryResult := none, nextResultToken := none }

/-- C10 witness: the totalization at the fully-empty response, with the
missing-field hypotheses discharged. -/
theorem claim10_witness :
    ((fetchResultsMap emptyRaw).results = [] ∧
      (fetchResultsMap emptyRaw).columns = []) ∧
    (fetchResultsMap emptyRaw).resultType = "PAYLOAD" ∧
    (fetchResultsMap emptyRaw).isQueryResult = false :=
  ⟨(claim10_fetchResults_totalizes emptyRaw).1 rfl,
   (claim10_fetchResults_totalizes emptyRaw).2.1 rfl,
   (claim10_fetchResults_totalizes emptyRaw).2.2 rfl⟩

/-- C8: for a non-2xx body parsing as an errors array with at least two
entries, the classifier strips the server-side wrapper from the second
entry and, when the stripped stack contains Caused-by lines, appends the
last (most specific) one to the short message taken from the first
entry. -/
theorem claim8_root_cause_appended (status : Nat) (e0 e1 : String)
    (rest : List String) (last : String)
    (hlast : (causedByLines (stripWrapper e1)).getLast? = some last) :
    handleErrorResponse status (.jsonErrors (e0 :: e1 :: rest)) =
      (e0 ++ " " ++ strTrim last, some (stripWrapper e1)) := by
  simp [handleErrorResponse, hlast]

/-- A concrete wrapped server-side stack with two Caused-by lines. -/
def sampleStack : String :=
  "<Exception on server side:\norg.apache.flink.OuterException: top\n\tat a.b\nCaused by: java.lang.MidException: middle\n\tat c.d\nCaused by: java.lang.RootException: root\n\tat e.f>"

/-- C8 witness: the classifier at a concrete two-entry errors array whose
stack carries two Caused-by lines appends the last one to the short
message. -/
theorem claim8_witness :
    handleErrorResponse 500
      (.jsonErrors ["Internal server error.", sampleStack]) =
      ("Internal server error." ++ " " ++
        strTrim "Caused by: java.lang.RootException: root",
        some (stripWrapper sampleStack)) :=
  claim8_root_cause_appended 500 "Internal server error." sampleStack []
    "Caused by: java.lang.RootException: root" (by decide)

set_option maxRecDepth 10000 in
/-- C2 is false as stated: in a streaming execution whose first page has
1001 rows, the initial publish (and the final one, no in-loop page having
arrived) carries 1001 rows, exceeding the 1000-row cap, because the
sliding-window slice is applied only inside the polling loop. -/
theorem claim2_counterexample :
    pubLens (runStatement bigFirstPageEnv "SELECT 1").1 = [1001, 1001] ∧
    (mkPage (List.range 1001) "PAYLOAD" true).isQueryResult = true ∧
    ¬ (∀ p ∈ pubLens (runStatement bigFirstPageEnv "SELECT 1").1, p ≤ 1000) := by
  refine ⟨by decide, rfl, ?_⟩
  intro hall
  exact absurd (hall 1001 (by decide)) (by decide)

/-- C2 amended: provided the first page respects the cap (at most 1000
rows), every published buffer of a streaming execution has length at most
1000; and independently of that, over the publishes that carry an offset
the quantity `offset + buffer.length` is non-decreasing (the initial and
final publishes carry no offset). -/
theorem claim2_amended_cap_and_monotone (env : StmtEnv) (stmt : String)
    (d0 : ResultData) (hs : env.submit = .ok ()) (hf : env.fetch 0 = .ok d0)
    (hq : d0.isQueryResult = true) (h1000 : d0.results.length ≤ 1000) :
    (∀ p ∈ pubLens (runStatement env stmt).1, p ≤ 1000) ∧
    List.Sorted (· ≤ ·) (osums (runStatement env stmt).1) := by
  have hd := runStatement_decomp env stmt d0 hs hf hq
  have hcap := streamLoop_cap d0.jobID env.cancelWorks env.fetch env.cancelAt
    1000 0 0 0 d0.results.length d0.results h1000
  have hsrt := streamLoop_sums d0.jobID env.cancelWorks env.fetch env.cancelAt
    1000 0 0 0 d0.results.length d0.results (le_refl _)
  rw [hd]
  dsimp only
  constructor
  · intro p hp
    by_cases hfail : failedExit (streamRun env d0).2.1 = true
    · rw [if_pos hfail] at hp
      simp only [pubLens_append, pubLens_stmtStart, pubLens_fetchOk,
        pubLens_publish, pubLens_nil, List.append_nil, List.nil_append,
        List.mem_append, List.mem_cons, List.not_mem_nil, or_false] at hp
      rcases hp with rfl | hp
      · exact h1000
      · exact hcap.1 p hp
    · rw [if_neg hfail] at hp
      simp only [pubLens_append, pubLens_stmtStart, pubLens_fetchOk,
        pubLens_publish, pubLens_nil, List.append_nil, List.nil_append,
        List.mem_append, List.mem_cons, List.not_mem_nil, or_false] at hp
      rcases hp with (rfl | hp) | rfl
      · exact h1000
      · exact hcap.1 p hp
      · exact hcap.2
  · by_cases hfail : failedExit (streamRun env d0).2.1 = true
    · rw [if_pos hfail]
      simpa only [osums_append, osums_stmtStart, osums_fetchOk,
        osums_publish_nooff, osums_nil, List.append_nil, List.nil_append]
        using hsrt.1
    · rw [if_neg hfail]
      simpa only [osums_append, osums_stmtStart, osums_fetchOk,
        osums_publish_nooff, osums_nil, List.append_nil, List.nil_append]
        using hsrt.1

/-- Streaming environment used as the C2 witness: a two-row first page,
one additional one-row page, then EOS. -/
def cappedStreamEnv : StmtEnv :=
  { submit := .ok ()
  , fetch := fun t =>
      if t = 0 then .ok (mkPage [1, 2] "PAYLOAD" true)
      else if t = 1 then .ok (mkPage [3] "PAYLOAD" true)
      else .ok (mkPage [] "EOS" true)
  , cancelAt := fun _ => false
  , cancelWorks := .ok () }

/-- C2 witness: the amended cap and monotonicity at the concrete capped
streaming environment. -/
theorem claim2_witness :
    (∀ p ∈ pubLens (runStatement cappedStreamEnv "SELECT 1").1, p ≤ 1000) ∧
    List.Sorted (· ≤ ·) (osums (runStatement cappedStreamEnv "SELECT 1").1) :=
  claim2_amended_cap_and_monotone cappedStreamEnv "SELECT 1"
    (mkPage [1, 2] "PAYLOAD" true) rfl rfl rfl (by decide)

/-- C4 is false as stated: a cancellation observed before the first
polling iteration produces TWO publishes with `isComplete = true` (one in
the cancellation branch carrying the offset, one unconditional after the
loop), not exactly one; the token list `[0]` confirms no fetch happens
after the cancellation is observed. -/
theorem claim4_counterexample :
    countCompletePubs (runStatement cancelledEnv "SELECT 1").1 = 2 ∧
    fetchTokens (runStatement cancelledEnv "SELECT 1").1 = [0] := by
  constructor
  · decide
  · decide

/-- C4 amended: when the cancellation signal is observed at the top of a
polling iteration, the statement trace consists of the initial events and
some loop prefix free of cancel requests, followed by the best-effort
remote cancel sequence (job cancel when a job id is known, the cancel
request, and — exactly when the cancel request succeeds — a close request
whose own failure is ignored), then exactly two complete-marked publishes
of the final buffer (the cancellation-branch one with the eviction
offset, the post-loop one without); the statement itself ends without an
error and no fetch occurs after the cancellation is observed (the
post-cancellation suffix contains no fetch events). -/
theorem claim4_amended_cancellation (env : StmtEnv) (stmt : String)
    (d0 : ResultData) (hs : env.submit = .ok ()) (hf : env.fetch 0 = .ok d0)
    (hq : d0.isQueryResult = true)
    (hcanc : (streamRun env d0).2.1 = .canceledUser) :
    ∃ evs0 off,
      (runStatement env stmt).1 =
        ([Event.stmtStart stmt, Event.fetchOk 0,
          Event.publish d0.results (some ⟨true, false, none⟩)] ++ evs0) ++
        (cancelOperation d0.jobID env.cancelWorks ++
          [Event.publish (streamRun env d0).2.2 (some ⟨false, true, some off⟩),
           Event.publish (streamRun env d0).2.2 (some ⟨false, true, none⟩)]) ∧
      (runStatement env stmt).2 = .ok () ∧
      countCompletePubs (runStatement env stmt).1 = 2 ∧
      fetchTokens (cancelOperation d0.jobID env.cancelWorks ++
        [Event.publish (streamRun env d0).2.2 (some ⟨false, true, some off⟩),
         Event.publish (streamRun env d0).2.2 (some ⟨false, true, none⟩)]) = [] ∧
      (∀ e ∈ evs0, e ≠ Event.cancelReq) := by
  have hd := runStatement_decomp env stmt d0 hs hf hq
  obtain ⟨evs0, off, heq, hfil, hnc⟩ :=
    streamLoop_cancelShape d0.jobID env.cancelWorks env.fetch env.cancelAt
      1000 0 0 0 d0.results.length d0.results hcanc
  have hfailed : failedExit (streamRun env d0).2.1 = true ↔ False := by
    rw [hcanc]
    simp [failedExit]
  have h0 : countCompletePubs evs0 = 0 := by
    simp [countCompletePubs, hfil]
  have hco : countCompletePubs (cancelOperation d0.jobID env.cancelWorks) = 0 := by
    simp [countCompletePubs, cancelOperation_completePubs]
  refine ⟨evs0, off, ?_, ?_, ?_, ?_, hnc⟩
  · rw [hd]
    dsimp only
    rw [if_neg (by simpa using hfailed.mp)]
    unfold streamRun
    rw [heq]
    simp [List.append_assoc]
  · rw [hd]
    dsimp only
    rw [hcanc]
    rfl
  · rw [hd]
    dsimp only
    rw [if_neg (by simpa using hfailed.mp)]
    unfold streamRun
    rw [heq]
    simp only [countCompletePubs_append, countCompletePubs_stmtStart,
      countCompletePubs_fetchOk, countCompletePubs_publish_incomplete,
      countCompletePubs_publish_complete, countCompletePubs_nil, h0, hco]
  · simp [cancelOperation_fetchTokens]

/-- C4 witness: the amended cancellation behavior at the concrete
environment cancelled before the first iteration. -/
theorem claim4_witness :
    ∃ evs0 off,
      (runStatement cancelledEnv "SELECT 1").1 =
        ([Event.stmtStart "SELECT 1", Event.fetchOk 0,
          Event.publish [1] (some ⟨true, false, none⟩)] ++ evs0) ++
        (cancelOperation (some "job-1") (.ok ()) ++
          [Event.publish (streamRun cancelledEnv
              { mkPage [1] "PAYLOAD" true with jobID := some "job-1" }).2.2
            (some ⟨false, true, some off⟩),
           Event.publish (streamRun cancelledEnv
              { mkPage [1] "PAYLOAD" true with jobID := some "job-1" }).2.2
            (some ⟨false, true, none⟩)]) ∧
      (runStatement cancelledEnv "SELECT 1").2 = .ok () ∧
      countCompletePubs (runStatement cancelledEnv "SELECT 1").1 = 2 ∧
      fetchTokens (cancelOperation (some "job-1") (.ok ()) ++
        [Event.publish (streamRun cancelledEnv
            { mkPage [1] "PAYLOAD" true with jobID := some "job-1" }).2.2
          (some ⟨false, true, some off⟩),
         Event.publish (streamRun cancelledEnv
            { mkPage [1] "PAYLOAD" true with jobID := some "job-1" }).2.2
          (some ⟨false, true, none⟩)]) = [] ∧
      (∀ e ∈ evs0, e ≠ Event.cancelReq) :=
  claim4_amended_cancellation cancelledEnv "SELECT 1"
    { mkPage [1] "PAYLOAD" true with jobID := some "job-1" } rfl rfl rfl (by decide)

/-- C6 is false as stated: after four successful-but-empty polls, a single
transient poll error (its first occurrence, containing neither structural
exception class) already escalates and fails the statement, because the
escalation counter is the shared `consecutiveEmpty` counter, which empty
successful polls also increment; the claim posits a threshold of five
consecutive poll failures. -/
theorem claim6_counterexample :
    (runStatement emptyThenErrorEnv "SELECT 1").2 =
      Except.error "connection reset" ∧
    ((runStatement emptyThenErrorEnv "SELECT 1").1.filter
      (fun e => match e with | .fetchErr _ => true | _ => false)).length = 1 ∧
    fatalErr "connection reset" = false := by
  refine ⟨by decide, by decide, by decide⟩

/-- C6 amended: during streaming polling, (a) an error whose text
contains one of the two structural exception class names aborts the
statement on first occurrence; a non-fatal error escalates exactly when
the shared `consecutiveEmpty` counter (incremented by empty successful
polls as well as by errors) reaches five with this increment, i.e. (b)
aborts when the counter is already at least 4 and (c) otherwise continues
polling with the counter incremented; (d) a successful empty poll also
continues with the counter incremented; and (e) only a successful poll
with at least one row resets the counter to zero. -/
theorem claim6_amended_error_policy :
    (∀ (j : Option String) (cw : Except String Unit)
        (f : Nat → Except String ResultData) (c : Nat → Bool)
        (fuel i tok cE tR : Nat) (acc : List Nat) (msg : String),
      c i = false → f (tok + 1) = .error msg → fatalErr msg = true →
      streamLoop j cw f c (fuel + 1) i tok cE tR acc =
        ([Event.fetchErr (tok + 1)], .failed msg, acc)) ∧
    (∀ (j : Option String) (cw : Except String Unit)
        (f : Nat → Except String ResultData) (c : Nat → Bool)
        (fuel i tok cE tR : Nat) (acc : List Nat) (msg : String),
      c i = false → f (tok + 1) = .error msg → fatalErr msg = false → 4 ≤ cE →
      streamLoop j cw f c (fuel + 1) i tok cE tR acc =
        ([Event.fetchErr (tok + 1)], .failed msg, acc)) ∧
    (∀ (j : Option String) (cw : Except String Unit)
        (f : Nat → Except String ResultData) (c : Nat → Bool)
        (fuel i tok cE tR : Nat) (acc : List Nat) (msg : String),
      c i = false → f (tok + 1) = .error msg → fatalErr msg = false → cE < 4 →
      streamLoop j cw f c (fuel + 1) i tok cE tR acc =
        (Event.fetchErr (tok + 1) ::
          (streamLoop j cw f c fuel (i + 1) (tok + 1) (cE + 1) tR acc).1,
          (streamLoop j cw f c fuel (i + 1) (tok + 1) (cE + 1) tR acc).2)) ∧
    (∀ (j : Option String) (cw : Except String Unit)
        (f : Nat → Except String ResultData) (c : Nat → Bool)
        (fuel i tok cE tR : Nat) (acc : List Nat) (d : ResultData),
      c i = false → f (tok + 1) = .ok d → d.resultType = "PAYLOAD" →
      d.results = [] →
      streamLoop j cw f c (fuel + 1) i tok cE tR acc =
        (Event.fetchOk (tok + 1) ::
          (streamLoop j cw f c fuel (i + 1) (tok + 1) (cE + 1) tR acc).1,
          (streamLoop j cw f c fuel (i + 1) (tok + 1) (cE + 1) tR acc).2)) ∧
    (∀ (j : Option String) (cw : Except String Unit)
        (f : Nat → Except String ResultData) (c : Nat → Bool)
        (fuel i tok cE tR : Nat) (acc : List Nat) (d : ResultData),
      c i = false → f (tok + 1) = .ok d → d.resultType = "PAYLOAD" →
      d.results ≠ [] →
      streamLoop j cw f c (fuel + 1) i tok cE tR acc =
        (Event.fetchOk (tok + 1) ::
          Event.publish
            (if (acc ++ d.results).length > 1000 then
              (acc ++ d.results).drop ((acc ++ d.results).length - 1000)
            else acc ++ d.results)
            (some ⟨true, false, some (tR + d.results.length -
              (if (acc ++ d.results).length > 1000 then
                (acc ++ d.results).drop ((acc ++ d.results).length - 1000)
              else acc ++ d.results).length)⟩) ::
          (streamLoop j cw f c fuel (i + 1) (tok + 1) 0 (tR + d.results.length)
            (if (acc ++ d.results).length > 1000 then
              (acc ++ d.results).drop ((acc ++ d.results).length - 1000)
            else acc ++ d.results)).1,
          (streamLoop j cw f c fuel (i + 1) (tok + 1) 0 (tR + d.results.length)
            (if (acc ++ d.results).length > 1000 then
              (acc ++ d.results).drop ((acc ++ d.results).length - 1000)
            else acc ++ d.results)).2)) := by
  refine ⟨?_, ?_, ?_, ?_, ?_⟩
  · intro j cw f c fuel i tok cE tR acc msg hci hf hfat
    simp only [streamLoop]
    rw [if_neg (by simp [hci])]
    rw [hf]
    dsimp only
    rw [if_pos hfat]
  · intro j cw f c fuel i tok cE tR acc msg hci hf hfat hcnt
    simp only [streamLoop]
    rw [if_neg (by simp [hci])]
    rw [hf]
    dsimp only
    rw [if_neg (by simp [hfat])]
    rw [if_pos (by omega)]
  · intro j cw f c fuel i tok cE tR acc msg hci hf hfat hcnt
    simp only [streamLoop]
    rw [if_neg (by simp [hci])]
    rw [hf]
    dsimp only
    rw [if_neg (by simp [hfat])]
    rw [if_neg (by omega)]
  · intro j cw f c fuel i tok cE tR acc d hci hf hty hres
    simp only [streamLoop]
    rw [if_neg (by simp [hci])]
    rw [hf]
    dsimp only
    rw [hty, hres]
    rw [if_neg (by decide)]
    rw [if_neg (by decide)]
    rw [if_neg (by decide)]
    rw [if_neg (by decide)]
  · intro j cw f c fuel i tok cE tR acc d hci hf hty hne
    simp only [streamLoop]
    rw [if_neg (by simp [hci])]
    rw [hf]
    dsimp only
    rw [hty]
    rw [if_neg (by decide)]
    rw [if_neg (by decide)]
    rw [if_pos (List.length_pos.mpr hne)]
    rw [if_neg (by decide)]

/-- Fetch oracle that always fails with a structural exception text. -/
def errFatalFetch : Nat → Except String ResultData :=
  fun _ => .error "NoResourceAvailableException"

/-- Fetch oracle that always fails with a transient error text. -/
def errTransientFetch : Nat → Except String ResultData :=
  fun _ => .error "glitch"

/-- Fetch oracle that always returns an empty payload page. -/
def emptyPageFetch : Nat → Except String ResultData :=
  fun _ => .ok (mkPage [] "PAYLOAD" true)

/-- Fetch oracle that always returns a one-row payload page. -/
def rowPageFetch : Nat → Except String ResultData :=
  fun _ => .ok (mkPage [7] "PAYLOAD" true)

/-- A cancellation signal that never fires. -/
def neverCancel : Nat → Bool := fun _ => false

/-- C6 witness: the five branches of the amended error policy at concrete
oracles — fatal abort, shared-counter escalation at 4, tolerated error at
0 with counter increment, empty-page counter increment, and counter reset
on a page with rows. -/
theorem claim6_witness :
    streamLoop none (.ok ()) errFatalFetch neverCancel 1 0 0 0 0 [] =
      ([Event.fetchErr 1], .failed "NoResourceAvailableException", []) ∧
    streamLoop none (.ok ()) errTransientFetch neverCancel 1 0 0 4 0 [] =
      ([Event.fetchErr 1], .failed "glitch", []) ∧
    streamLoop none (.ok ()) errTransientFetch neverCancel 1 0 0 0 0 [] =
      (Event.fetchErr 1 ::
        (streamLoop none (.ok ()) errTransientFetch neverCancel 0 1 1 1 0 []).1,
        (streamLoop none (.ok ()) errTransientFetch neverCancel 0 1 1 1 0 []).2) ∧
    streamLoop none (.ok ()) emptyPageFetch neverCancel 1 0 0 0 0 [] =
      (Event.fetchOk 1 ::
        (streamLoop none (.ok ()) emptyPageFetch neverCancel 0 1 1 1 0 []).1,
        (streamLoop none (.ok ()) emptyPageFetch neverCancel 0 1 1 1 0 []).2) ∧
    streamLoop none (.ok ()) rowPageFetch neverCancel 1 0 0 5 0 [] =
      (Event.fetchOk 1 ::
        Event.publish
          (if (([] : List Nat) ++ [7]).length > 1000 then
            (([] : List Nat) ++ [7]).drop ((([] : List Nat) ++ [7]).length - 1000)
          else ([] : List Nat) ++ [7])
          (some ⟨true, false, some (0 + ([7] : List Nat).length -
            (if (([] : List Nat) ++ [7]).length > 1000 then
              (([] : List Nat) ++ [7]).drop ((([] : List Nat) ++ [7]).length - 1000)
            else ([] : List Nat) ++ [7]).length)⟩) ::
        (streamLoop none (.ok ()) rowPageFetch neverCancel 0 1 1 0
          (0 + ([7] : List Nat).length)
          (if (([] : List Nat) ++ [7]).length > 1000 then
            (([] : List Nat) ++ [7]).drop ((([] : List Nat) ++ [7]).length - 1000)
          else ([] : List Nat) ++ [7])).1,
        (streamLoop none (.ok ()) rowPageFetch neverCancel 0 1 1 0
          (0 + ([7] : List Nat).length)
          (if (([] : List Nat) ++ [7]).length > 1000 then
            (([] : List Nat) ++ [7]).drop ((([] : List Nat) ++ [7]).length - 1000)
          else ([] : List Nat) ++ [7])).2) :=
  ⟨claim6_amended_error_policy.1 none (.ok ()) errFatalFetch neverCancel
      0 0 0 0 0 [] "NoResourceAvailableException" rfl rfl (by decide),
   claim6_amended_error_policy.2.1 none (.ok ()) errTransientFetch neverCancel
      0 0 0 4 0 [] "glitch" rfl rfl (by decide) (by decide),
   claim6_amended_error_policy.2.2.1 none (.ok ()) errTransientFetch neverCancel
      0 0 0 0 0 [] "glitch" rfl rfl (by decide) (by decide),
   claim6_amended_error_policy.2.2.2.1 none (.ok ()) emptyPageFetch neverCancel
      0 0 0 0 0 [] (mkPage [] "PAYLOAD" true) rfl rfl rfl rfl,
   claim6_amended_error_policy.2.2.2.2 none (.ok ()) rowPageFetch neverCancel
      0 0 0 5 0 [] (mkPage [7] "PAYLOAD" true) rfl rfl rfl (by decide)⟩

/-- C7 is false as stated, in both loops: the metadata loop, given a first
response without `nextResultToken`, re-fetches token 0 instead of
incrementing to 1; and the streaming loop, given a first page carrying
`nextResultToken = 7`, fetches token 1, ignoring the supplied token. -/
theorem claim7_counterexample :
    (executeMetadataSql metaNoTokenEnv).map (fun p => p.1.map Prod.fst) =
      Except.ok [0, 0] ∧
    (mkPage [5] "PAYLOAD" false).nextResultToken = none ∧
    fetchTokens (runStatement tokenHintEnv "SELECT 1").1 = [0, 1] ∧
    ({ mkPage [1] "PAYLOAD" true with
        nextResultToken := some 7 } : ResultData).nextResultToken = some 7 := by
  refine ⟨by decide, rfl, by decide, rfl⟩

/-- C7 amended: in the streaming polling loop the token starts at 0 and
then increments by one on every poll, unconditionally and ignoring any
gateway-supplied `nextResultToken`; in the metadata-query loop the first
request uses token 0 and each later request uses the `nextResultToken`
of the previous response when present and token 0 (a re-fetch, not an
increment) otherwise. -/
theorem claim7_amended_token_advancement :
    (∀ (env : StmtEnv) (stmt : String) (d0 : ResultData),
      env.submit = .ok () → env.fetch 0 = .ok d0 → d0.isQueryResult = true →
      ∃ n, fetchTokens (runStatement env stmt).1 = 0 :: consecutiveFrom 1 n) ∧
    (∀ (env : MetaEnv) (calls : List (Nat × ResultData)) (rows : List Nat),
      executeMetadataSql env = .ok (calls, rows) →
      (∃ r0 rest, calls = (0, r0) :: rest) ∧
      List.Chain' (fun p q => q.1 = nextTok p.2) calls) := by
  constructor
  · intro env stmt d0 hs hf hq
    have hd := runStatement_decomp env stmt d0 hs hf hq
    obtain ⟨n, hn⟩ := streamLoop_tokens d0.jobID env.cancelWorks env.fetch
      env.cancelAt 1000 0 0 0 d0.results.length d0.results
    refine ⟨n, ?_⟩
    rw [hd]
    dsimp only
    by_cases hfail : failedExit (streamRun env d0).2.1 = true
    · rw [if_pos hfail]
      simp only [fetchTokens_append, fetchTokens_stmtStart, fetchTokens_fetchOk,
        fetchTokens_publish, fetchTokens_nil, List.append_nil]
      rw [show fetchTokens (streamRun env d0).1 = consecutiveFrom 1 n from hn]
      rfl
    · rw [if_neg hfail]
      simp only [fetchTokens_append, fetchTokens_stmtStart, fetchTokens_fetchOk,
        fetchTokens_publish, fetchTokens_nil, List.append_nil]
      rw [show fetchTokens (streamRun env d0).1 = consecutiveFrom 1 n from hn]
      rfl
  · intro env calls rows h
    unfold executeMetadataSql at h
    cases hs : env.submit with
    | error e => rw [hs] at h; simp at h
    | ok u =>
      rw [hs] at h
      dsimp only at h
      cases hr : env.respond 0 with
      | error e => rw [hr] at h; simp at h
      | ok r0 =>
        rw [hr] at h
        dsimp only at h
        cases hm : metaLoop env.respond 20 1 r0 with
        | error e => rw [hm] at h; simp at h
        | ok pr =>
          obtain ⟨calls1, fin1⟩ := pr
          rw [hm] at h
          simp only [Except.ok.injEq, Prod.mk.injEq] at h
          obtain ⟨h1, h2⟩ := h
          subst h1
          refine ⟨⟨r0, calls1, rfl⟩, ?_⟩
          exact metaLoop_chain env.respond 20 1 r0 calls1 fin1 hm 0

/-- C7 witness: the amended token advancement at the concrete streaming
environment with a token hint and the concrete metadata environment
without one. -/
theorem claim7_witness :
    (∃ n, fetchTokens (runStatement tokenHintEnv "SELECT 1").1 =
      0 :: consecutiveFrom 1 n) ∧
    ((∃ r0 rest, ([(0, mkPage [5] "PAYLOAD" false),
        (0, mkPage [5] "EOS" false)] : List (Nat × ResultData)) = (0, r0) :: rest) ∧
      List.Chain' (fun p q => q.1 = nextTok p.2)
        ([(0, mkPage [5] "PAYLOAD" false), (0, mkPage [5] "EOS" false)] :
          List (Nat × ResultData))) :=
  ⟨claim7_amended_token_advancement.1 tokenHintEnv "SELECT 1"
      { mkPage [1] "PAYLOAD" true with nextResultToken := some 7 } rfl rfl rfl,
   claim7_amended_token_advancement.2 metaNoTokenEnv
      [(0, mkPage [5] "PAYLOAD" false), (0, mkPage [5] "EOS" false)] [5]
      (by decide)⟩

/-- C9 is false as stated: a cell consisting of the single statement
`DROP TABLE t` — a DROP-prefixed DDL statement — fires zero
metadata-changed notifications, because only CREATE-prefixed statements
set the notification flag. -/
theorem claim9_counterexample :
    countMeta (cellExec dropCellEnv) = 0 ∧
    (splitStatements dropCellEnv.sql).any
      (fun s => strStartsWith (strToUpper s) "DROP") = true ∧
    hasCreateStatement (splitStatements dropCellEnv.sql) = false := by
  refine ⟨by decide, by decide, by decide⟩

/-- C9 amended: statements of a cell run sequentially in order (the
entered statements form an initial segment of the split list, the whole
list when every statement succeeds), and exactly one post-batch
metadata-changed notification fires when at least one statement is
CREATE-prefixed (case-insensitive) while none fires otherwise — DROP or
other non-CREATE DDL statements do not trigger it. -/
theorem claim9_amended_notification (env : CellEnv)
    (hs : env.session = .ok ()) :
    countMeta (cellExec env) =
      (if hasCreateStatement (splitStatements env.sql) then 1 else 0) ∧
    (∃ t, stmtStarts (cellExec env) ++ t = splitStatements env.sql) ∧
    ((runStmts env.stmts (splitStatements env.sql) 0).2 = .ok () →
      stmtStarts (cellExec env) = splitStatements env.sql) := by
  unfold cellExec
  rw [hs]
  dsimp only
  by_cases hempty : (splitStatements env.sql).isEmpty = true
  · rw [if_pos hempty]
    have hnil : splitStatements env.sql = [] := List.isEmpty_iff.mp hempty
    rw [hnil]
    have hcr : hasCreateStatement ([] : List String) = false := rfl
    rw [hcr]
    refine ⟨by simp [countMeta, stmtStarts, hasCreateStatement], ⟨[], by
      simp [stmtStarts]⟩, ?_⟩
    intro hok
    simp [stmtStarts]
  · rw [if_neg hempty]
    have hrs := runStmts_countMeta env.stmts (splitStatements env.sql) 0
    obtain ⟨⟨t, ht⟩, hall⟩ := runStmts_stmtStarts env.stmts (splitStatements env.sql) 0
    cases ho : (runStmts env.stmts (splitStatements env.sql) 0).2 with
    | error e =>
      dsimp only
      by_cases hcr : hasCreateStatement (splitStatements env.sql) = true
      · rw [if_pos hcr, if_pos hcr]
        refine ⟨?_, ⟨t, ?_⟩, ?_⟩
        · simp only [countMeta, List.filter_append, List.length_append] at hrs ⊢
          simp [hrs]
        · simpa [stmtStarts, List.filterMap_append] using ht
        · intro hok
          simp at hok
      · rw [if_neg hcr, if_neg hcr]
        refine ⟨?_, ⟨t, ?_⟩, ?_⟩
        · simp only [countMeta, List.filter_append, List.length_append] at hrs ⊢
          simp [hrs]
        · simpa [stmtStarts, List.filterMap_append] using ht
        · intro hok
          simp at hok
    | ok v =>
      dsimp only
      by_cases hcr : hasCreateStatement (splitStatements env.sql) = true
      · rw [if_pos hcr, if_pos hcr]
        refine ⟨?_, ⟨t, ?_⟩, ?_⟩
        · simp only [countMeta, List.filter_append, List.length_append] at hrs ⊢
          simp [hrs]
        · simpa [stmtStarts, List.filterMap_append] using ht
        · intro hok
          simpa [stmtStarts, List.filterMap_append] using hall (by rw [ho])
      · rw [if_neg hcr, if_neg hcr]
        refine ⟨?_, ⟨t, ?_⟩, ?_⟩
        · simp only [countMeta, List.filter_append, List.length_append] at hrs ⊢
          simp [hrs]
        · simpa [stmtStarts, List.filterMap_append] using ht
        · intro hok
          simpa [stmtStarts, List.filterMap_append] using hall (by rw [ho])

/-- C9 witness: the amended notification behavior at the concrete cell
`CREATE TABLE t (x INT); INSERT INTO t VALUES (1)`. -/
theorem claim9_witness :
    countMeta (cellExec createInsertCellEnv) =
      (if hasCreateStatement (splitStatements createInsertCellEnv.sql)
        then 1 else 0) ∧
    (∃ t, stmtStarts (cellExec createInsertCellEnv) ++ t =
      splitStatements createInsertCellEnv.sql) ∧
    ((runStmts createInsertCellEnv.stmts
        (splitStatements createInsertCellEnv.sql) 0).2 = .ok () →
      stmtStarts (cellExec createInsertCellEnv) =
        splitStatements createInsertCellEnv.sql) :=
  claim9_amended_notification createInsertCellEnv rfl

/-- C5: when the active session handle fails its liveness check,
`getActiveSessionHandle` removes the stale session, creates a replacement
named `default` on the same connection, and returns the new handle
without surfacing an exception; the stale handle is absent from the
resulting session list. (Hypotheses: the active session record and its
connection exist, the liveness check fails, and the gateway issues a
fresh handle distinct from the stale one.) -/
theorem claim5_stale_session_recovery (env : SMEnv) (st : SMState)
    (h : String) (s0 : SessionInfo) (h2 : String)
    (hact : st.active = some h)
    (hfind : st.sessions.find? (fun s => s.handle == h) = some s0)
    (hconn : st.connections.contains s0.connectionId = true)
    (hlive : env.check h = false)
    (hgw : env.gwCreate = .ok h2)
    (hne : h2 ≠ h) :
    ∃ st2, getActiveSessionHandle env st = .ok (h2, st2) ∧
      st2.active = some h2 ∧
      (∀ s ∈ st2.sessions, s.handle ≠ h) ∧
      (∃ s ∈ st2.sessions, s.handle = h2 ∧ s.name = "default" ∧
        s.connectionId = s0.connectionId) := by
  unfold getActiveSessionHandle
  rw [hact]
  dsimp only
  rw [hfind]
  dsimp only
  rw [if_neg (by rw [hconn]; simp)]
  rw [if_neg (by simp [hlive])]
  unfold createSession removeSessionState
  dsimp only [Option.map]
  rw [if_pos hconn]
  dsimp only
  rw [hgw]
  refine ⟨_, rfl, rfl, ?_, ?_⟩
  · intro s hsmem
    rcases List.mem_append.mp hsmem with hsf | hsnew
    · have := (List.mem_filter.mp hsf).2
      simpa using this
    · rcases List.mem_singleton.mp hsnew with rfl
      simpa using hne
  · refine ⟨⟨"default", h2, s0.connectionId, env.now⟩, ?_, rfl, rfl, rfl⟩
    exact List.mem_append.mpr (Or.inr (List.mem_singleton.mpr rfl))

/-- A registered session used by the C5 witness. -/
def demoSession : SessionInfo :=
  { name := "old", handle := "h1", connectionId := "c1", createdAt := 0 }

/-- Registry state with one connection and one active session. -/
def demoState : SMState :=
  { connections := ["c1"], sessions := [demoSession], active := some "h1" }

/-- Registry environment where every liveness check fails and the gateway
issues the fresh handle `h2`. -/
def demoEnv : SMEnv :=
  { check := fun _ => false, gwCreate := .ok "h2", pickConn := none,
    pickedSession := none, inputName := none, now := 5 }

/-- C5 witness: the stale-session recovery at the concrete registry
state. -/
theorem claim5_witness :
    ∃ st2, getActiveSessionHandle demoEnv demoState = .ok ("h2", st2) ∧
      st2.active = some "h2" ∧
      (∀ s ∈ st2.sessions, s.handle ≠ "h1") ∧
      (∃ s ∈ st2.sessions, s.handle = "h2" ∧ s.name = "default" ∧
        s.connectionId = "c1") :=
  claim5_stale_session_recovery demoEnv demoState "h1" demoSession "h2"
    rfl (by decide) (by decide) rfl rfl (by decide)
